import Mathlib

/-!
Verification development for the RockRouteRecommender filter compiler
(RoutePipeline in src/RouteDataPipeline.py).

The compiler RoutePipeline.processFilters takes a keyword-argument mapping
of criteria and builds three things: a SQL join clause, a SQL where clause,
and a mapping of named query parameters.  We embed the construction as a
pure Lean function from a criteria association list to a query plan.  The
join and where clauses are modelled as lists of plan items; a rendering
function maps each item to the exact text the Python code concatenates,
with parameter placeholders kept as a separate fragment constructor so
that injection-safety properties can be stated.  Database reference tables
(DifficultyReference, SeverityReference) and the geocoder are abstracted
as read-only inputs in an environment record, matching the code which only
reads them.
-/

set_option autoImplicit false

namespace RockRoute

/-! ### Python string primitives -/

/-- Whitespace characters stripped by Python str.strip(). -/
def isWsChar (c : Char) : Bool := c = ' ' || c = '\t' || c = '\n' || c = '\r'

/-- Lower-casing of one ASCII character, as Python str.lower() does. -/
def lowerChar (c : Char) : Char :=
  if 'A' ≤ c && c ≤ 'Z' then Char.ofNat (c.toNat + 32) else c

/-- Upper-casing of one ASCII character, as Python str.upper() does. -/
def upperChar (c : Char) : Char :=
  if 'a' ≤ c && c ≤ 'z' then Char.ofNat (c.toNat - 32) else c

/-- Python str.lower(). -/
def pyLower (s : String) : String := ⟨s.data.map lowerChar⟩

/-- Python str.upper(). -/
def pyUpper (s : String) : String := ⟨s.data.map upperChar⟩

/-- Drop matching characters from the tail of a list. -/
def dropTrail (p : Char → Bool) (l : List Char) : List Char :=
  ((l.reverse.dropWhile p)).reverse

/-- Python str.strip() on a character list: drop whitespace at both ends. -/
def stripWsL (l : List Char) : List Char := (dropTrail isWsChar l).dropWhile isWsChar

/-- Python str.strip(). -/
def pyStripWs (s : String) : String := ⟨stripWsL s.data⟩

/-- Python str.strip(c) on a character list: drop the character at both ends. -/
def stripCharL (c : Char) (l : List Char) : List Char :=
  (dropTrail (fun x => x = c) l).dropWhile (fun x => x = c)

/-- Python str.strip(c) for a single strip character. -/
def pyStripChar (c : Char) (s : String) : String := ⟨stripCharL c s.data⟩

/-- Python str.endswith(c) for a one-character suffix. -/
def pyEndsWith (s : String) (c : Char) : Bool := s.data.getLast? = some c

/-- Substring test on character lists (Python in-operator for strings). -/
def containsSubL (hay pat : List Char) : Bool :=
  match hay with
  | [] => pat.isEmpty
  | _ :: t => pat.isPrefixOf hay || containsSubL t pat

/-- Python substring containment: pat in hay. -/
def containsSub (hay pat : String) : Bool := containsSubL hay.data pat.data

/-- Decimal value parsed by Python float(), kept unreduced as mantissa and
number of decimal places so that equality of parses is structural. -/
structure PyNum where
  mant : Int
  dec : Nat
deriving DecidableEq, Repr

/-- Numeric value of a digit list. -/
def digitsVal (l : List Char) : Nat := l.foldl (fun a c => a * 10 + (c.toNat - 48)) 0

/-- Core of Python float() on an already whitespace-stripped character list:
optional sign, integer digits, optional dot and fraction digits. -/
def parseFloatCore (l : List Char) : Option PyNum :=
  let sgn : Int := match l with
    | '-' :: _ => -1
    | _ => 1
  let l1 : List Char := match l with
    | '-' :: r => r
    | '+' :: r => r
    | _ => l
  let ip := l1.takeWhile (fun c => c ≠ '.')
  let rest := l1.dropWhile (fun c => c ≠ '.')
  if ip.all Char.isDigit then
    match rest with
    | [] => if ip.isEmpty then none else some ⟨sgn * (digitsVal ip : Int), 0⟩
    | _ :: fp =>
        if fp.all Char.isDigit && !(ip.isEmpty && fp.isEmpty) then
          some ⟨sgn * (digitsVal (ip ++ fp) : Int), fp.length⟩
        else none
  else none

/-- Python float() applied to a string (float itself strips whitespace). -/
def parseFloat (s : String) : Option PyNum := parseFloatCore (stripWsL s.data)

/-! ### Query plan data model -/

/-- One fragment of query text: either literal text concatenated into the
query string, or a named psycopg2 placeholder of the form percent-(name)-s. -/
inductive Frag
  | lit (s : String)
  | param (n : String)
deriving DecidableEq, Repr

/-- A typed parameter value bound in the query parameter mapping. -/
inductive Val
  | str (s : String)
  | num (x : PyNum)
  | int (i : Int)
  | null
deriving DecidableEq, Repr

/-- The six plain numeric range criteria handled by processFilters. -/
inductive NumCrit
  | height | pitches | grade | averageRating | voteCount | elevation
deriving DecidableEq, Repr

/-- Comparison operator of a compiled range predicate. -/
inductive CmpOp
  | ge | le | eq
deriving DecidableEq, Repr

/-- Route type categories recognized by the type filter. -/
inductive TypeCat
  | trad | aid | sport | boulder | topRope | alpine | ice | snow | mixed
deriving DecidableEq, Repr

/-- One clause appended to the where-clause string by processFilters. -/
inductive WhereItem
  | baseBare
  | base
  | diffHigh
  | diffLow
  | diffSystem
  | typeFilter (cats : List TypeCat)
  | sevLe
  | numCmp (c : NumCrit) (op : CmpOp)
  | latNotNull
  | lonNotNull
  | notGenericArea
  | distCmp (op : CmpOp)
deriving DecidableEq, Repr

/-- One block appended to the join-clause string by processFilters. -/
inductive JoinItem
  | diffJoin | sevJoin | elevJoin | geoJoin
deriving DecidableEq, Repr

/-- Row of the DifficultyReference table. -/
structure DiffEntry where
  ratingSystem : String
  difficulty : String
  ranking : Int
deriving DecidableEq, Repr

/-- Row of the SeverityReference table. -/
structure SevEntry where
  severity : String
  ranking : Int
deriving DecidableEq, Repr

/-- Read-only collaborators of the compiler: the two reference tables, the
geocoder (city-state query text to coordinates), and the lookup of stored
area coordinates for a proximity route or area id. -/
structure Env where
  diffTable : List DiffEntry
  sevTable : List SevEntry
  geocode : String → Option (PyNum × PyNum)
  routeLatLong : Int → Option (PyNum × PyNum)

/-- Accumulator state while processFilters appends joins, clauses, parameters. -/
structure BuildState where
  joins : List JoinItem
  wheres : List WhereItem
  params : List (String × Val)
deriving DecidableEq, Repr

/-- Append new joins, where clauses and parameters to the build state. -/
def extendState (st : BuildState) (js : List JoinItem) (ws : List WhereItem)
    (ps : List (String × Val)) : BuildState :=
  ⟨st.joins ++ js, st.wheres ++ ws, st.params ++ ps⟩

/-- The compiled filter plan: joins, where clauses, and the parameter mapping
(None when no criteria at all were supplied, as in the Python code). -/
structure Plan where
  joins : List JoinItem
  wheres : List WhereItem
  params : Option (List (String × Val))
deriving DecidableEq, Repr

/-- Errors raised by the pipeline, one constructor per Python raise site or
runtime failure mode. noneSubscript is the TypeError raised when
cursor.fetchone() returns no row and the code subscripts None. -/
inductive PipeError
  | unknownDifficulty (pat : String)
  | keyError (k : String)
  | noneSubscript
  | invalidRouteType
  | invalidNumber (c : NumCrit)
  | cityStateRadius
  | latLongRadius
  | proximityRadius
  | locationNotFound
  | cannotParseRouteId
  | noLatLong
  | floatValueError
  | invalidRadius
  | invalidDistanceUnits
  | invalidKeywords (ks : List String)
deriving DecidableEq, Repr

/-! ### Rendering plan items to the exact Python-built query text

Literal SQL text from RouteDataPipeline.py is reproduced with apostrophes
written as the hexadecimal escape x27. -/

/-- SQL like-pattern atom of the type filter (lines 437-461). -/
def likeClause (pat : String) : String :=
  "lower(r.Type) like \x27%%" ++ pat ++ "%%\x27"

/-- Negated SQL like-pattern atom of the type filter. -/
def notLikeClause (pat : String) : String :=
  "lower(r.Type) not like \x27%%" ++ pat ++ "%%\x27"

/-- The disjunct text appended for each recognized type category, from
processFilters lines 436-461. -/
def catText : TypeCat → String
  | .trad => "or (" ++ likeClause "trad" ++ " and " ++ notLikeClause "aid" ++ " and " ++
      notLikeClause "mixed" ++ " and " ++ notLikeClause "ice" ++ " and " ++
      notLikeClause "snow" ++ ") "
  | .aid => "or (" ++ likeClause "aid" ++ ") "
  | .sport => "or (" ++ likeClause "sport" ++ " and " ++ notLikeClause "trad" ++ " and " ++
      notLikeClause "aid" ++ " and " ++ notLikeClause "mixed" ++ " and " ++
      notLikeClause "ice" ++ " and " ++ notLikeClause "snow" ++ ") "
  | .boulder => "or (" ++ likeClause "boulder" ++ " and " ++ notLikeClause "trad" ++ ") "
  | .topRope => "or (" ++ likeClause "top rope" ++ ") "
  | .alpine => "or (" ++ likeClause "alpine" ++ ") "
  | .ice => "or (" ++ likeClause "ice" ++ ") "
  | .snow => "or (" ++ likeClause "snow" ++ ") "
  | .mixed => "or (" ++ likeClause "mixed" ++ ") "

/-- Column name used by a compiled numeric comparison; the source writes
r.Votecount in the greater-equal branch and r.VoteCount otherwise. -/
def colName : NumCrit → CmpOp → String
  | .height, _ => "r.Height"
  | .pitches, _ => "r.Pitches"
  | .grade, _ => "r.Grade"
  | .averageRating, _ => "r.AverageRating"
  | .voteCount, .ge => "r.Votecount"
  | .voteCount, _ => "r.VoteCount"
  | .elevation, _ => "e.Elevation"

/-- SQL text of a comparison operator. -/
def opText : CmpOp → String
  | .ge => ">="
  | .le => "<="
  | .eq => "="

/-- Parameter name bound for each numeric criterion. -/
def paramName : NumCrit → String
  | .height => "height"
  | .pitches => "pitches"
  | .grade => "grade"
  | .averageRating => "averageRating"
  | .voteCount => "voteCount"
  | .elevation => "elevation"

/-- Render one where-clause item to the fragments the Python code appends. -/
def renderWhereItem : WhereItem → List Frag
  | .baseBare => [.lit "where true"]
  | .base => [.lit "where true "]
  | .diffHigh => [.lit "and (ref.DifficultyRanking <= ", .param "difficultyHigh", .lit ") "]
  | .diffLow => [.lit "and (ref.DifficultyRanking >= ", .param "difficultyLow", .lit ") "]
  | .diffSystem => [.lit "and (ref.RatingSystem = ", .param "ratingSystem", .lit ") "]
  | .typeFilter cats =>
      [Frag.lit "and (false "] ++ cats.map (fun c => Frag.lit (catText c)) ++ [Frag.lit ") "]
  | .sevLe => [.lit "and (sev.SeverityRanking <= ", .param "severity", .lit ") "]
  | .numCmp c op =>
      [.lit ("and (" ++ colName c op ++ " " ++ opText op ++ " "), .param (paramName c), .lit ") "]
  | .latNotNull => [.lit "and (a.Latitude is not null) "]
  | .lonNotNull => [.lit "and (a.Longitude is not null) "]
  | .notGenericArea => [.lit "and (a.AreaId != 112166257) "]
  | .distCmp op => [.lit ("and (d.Distance " ++ opText op ++ " "), .param "radius", .lit ") "]

/-- Join block text for the difficulty reference join (lines 410-426). -/
def diffJoinText : String :=
  "\n                left join lateral (\n                    select unnest(string_to_array(coalesce(r.Difficulty_ADL, \x27\x27), \x27 \x27)) as Difficulty\n                    union all\n                    select r.Difficulty_YDS\n                ) l0\n                    on true\n                left join lateral (\n                    select case when l0.Difficulty = \x27Steep\x27 then \x27Steep Snow\x27\n                                when l0.Difficulty = \x27Mod.\x27 then \x27Mod. Snow\x27\n                                when l0.Difficulty = \x27Easy\x27 then \x27Easy Snow\x27\n                                else l0.Difficulty end as Difficulty\n                ) l\n                    on true\n                inner join DifficultyReference ref\n                    on l.Difficulty = ref.Difficulty\n            "

/-- Join block text for the severity reference join (lines 482-485). -/
def sevJoinText : String :=
  "\n                inner join SeverityReference sev\n                    on sev.Severity = coalesce(r.Severity, \x27G\x27)\n            "

/-- Join block text for the owning-area join of the elevation filter (611-614). -/
def elevJoinText : String :=
  "\n            inner join Areas e\n                on e.AreaId = r.AreaId\n            "

/-- Literal pieces of the geospatial join block (lines 697-705), split at the
three parameter placeholders. -/
def geoJoinLit0 : String :=
  "\n                inner join Areas a\n                    on a.AreaId = r.AreaId\n                left join lateral (\n                    select  "
def geoJoinLit1 : String := " * 2 * asin(sqrt(sin((radians(a.Latitude) - radians("
def geoJoinLit2 : String := ")) / 2) ^ 2 \n                            + cos(radians("
def geoJoinLit3 : String := ")) * cos(radians(a.Latitude)) * sin((radians(a.Longitude) - radians("
def geoJoinLit4 : String :=
  ")) / 2) ^ 2)) as Distance\n                ) d\n                    on true\n            "

/-- Render one join item to the fragments the Python code appends. -/
def renderJoinItem : JoinItem → List Frag
  | .diffJoin => [.lit diffJoinText]
  | .sevJoin => [.lit sevJoinText]
  | .elevJoin => [.lit elevJoinText]
  | .geoJoin =>
      [.lit geoJoinLit0, .param "earthRadius", .lit geoJoinLit1, .param "latitude",
       .lit geoJoinLit2, .param "latitude", .lit geoJoinLit3, .param "longitude",
       .lit geoJoinLit4]

/-- Render a whole where-item list. -/
def renderWhere (l : List WhereItem) : List Frag :=
  l.foldr (fun i acc => renderWhereItem i ++ acc) []

/-- Render a whole join-item list. -/
def renderJoins (l : List JoinItem) : List Frag :=
  l.foldr (fun i acc => renderJoinItem i ++ acc) []

/-- All fragments of a compiled plan (join clause then where clause). -/
def renderPlan (p : Plan) : List Frag := renderJoins p.joins ++ renderWhere p.wheres

/-- Text of one fragment: a placeholder renders in the psycopg2 named style. -/
def fragText : Frag → String
  | .lit s => s
  | .param n => "%(" ++ n ++ ")s"

/-- Concatenated text of a fragment list, as the Python code builds it. -/
def textOf (l : List Frag) : String := (l.map fragText).foldr (fun a b => a ++ b) ""

/-! ### Internal reference lookups executed by the compiler -/

/-- Rank lookup for an explicit low difficulty bound (lines 374-379):
parameterized on the token and the rating system. -/
def rankLowQuery : List Frag :=
  [.lit "\n                    select DifficultyRanking\n                        from DifficultyReference\n                        where Difficulty = ", .param "routeDifficultyLow",
   .lit "\n                            and RatingSystem = ", .param "ratingSystem",
   .lit "\n                "]

/-- Rank lookup for an explicit high difficulty bound (lines 391-396). -/
def rankHighQuery : List Frag :=
  [.lit "\n                    select DifficultyRanking\n                        from DifficultyReference\n                        where Difficulty = ", .param "routeDifficultyHigh",
   .lit "\n                            and RatingSystem = ", .param "ratingSystem",
   .lit "\n                "]

/-- Minimum-rank lookup used when the low bound is omitted (lines 381-385). -/
def minRankQuery : List Frag :=
  [.lit "\n                    select min(DifficultyRanking)\n                        from DifficultyReference\n                        where RatingSystem = ", .param "ratingSystem",
   .lit "\n                "]

/-- Maximum-rank lookup used when the high bound is omitted (lines 398-402). -/
def maxRankQuery : List Frag :=
  [.lit "\n                    select max(DifficultyRanking)\n                        from DifficultyReference\n                        where RatingSystem = ", .param "ratingSystem",
   .lit "\n                "]

/-- Severity rank lookup of the severity filter (lines 472-476). -/
def severityRankQuery : List Frag :=
  [.lit "\n                select SeverityRanking\n                    from SeverityReference\n                    where Severity = ", .param "severityThreshold",
   .lit "\n            "]

/-- Overview query of fetchRatingSystemDifficulties (lines 52-73): distinct
rating systems with a fixed ordering and display name; binds no values. -/
def ratingSystemsQuery : List Frag :=
  [.lit "\n        select\tdistinct RatingSystem, case-ordering, case-ratingsystemname\n            from difficultyreference\n            order by 2\n        "]

/-- Per-system difficulty enumeration of fetchRatingSystemDifficulties
(lines 79-85).  The Python code interpolates the rating-system value into
the query text with an f-string, so the value appears as a literal
fragment, not as a placeholder, and the query binds no parameters. -/
def difficultyListQuery (rs : String) : List Frag :=
  [.lit "\n            select Difficulty, DifficultyRanking\n                from DifficultyReference\n                where RatingSystem = \x27", .lit rs,
   .lit "\x27\n                    and Difficulty != \x275th\x27\n                order by 2\n            "]

/-! ### fetchRatingSystemDifficulties (lines 44-92) -/

/-- The display name of a rating system code (the case expression of the
overview query, lines 63-70). -/
def ratingSystemName (rs : String) : Option String :=
  if rs = "YDS" then some "Yosemite Decimal"
  else if rs = "V" then some "V Scale"
  else if rs = "C" then some "Clean Aid"
  else if rs = "A" then some "Aid"
  else if rs = "Snow" then some "Snow"
  else if rs = "AI" then some "Alpine Ice"
  else if rs = "WI" then some "Winter Ice"
  else if rs = "M" then some "Mixed"
  else none

/-- Distinct rating systems present in the reference table. -/
def distinctSystems (t : List DiffEntry) : List String :=
  (t.map (·.ratingSystem)).dedup

/-- Difficulty tokens of one rating system, excluding the 5th placeholder
filtered out by the query at line 83. -/
def famTokens (t : List DiffEntry) (rs : String) : List String :=
  (t.filter (fun e => e.ratingSystem = rs && e.difficulty ≠ "5th")).map (·.difficulty)

/-- Result dictionary of fetchRatingSystemDifficulties: display name to
difficulty token list, for each system present in the table. -/
def fetchRatingSystemDifficulties (t : List DiffEntry) : List (String × List String) :=
  (distinctSystems t).filterMap
    (fun rs => (ratingSystemName rs).map (fun nm => (nm, famTokens t rs)))

/-- The queries fetchRatingSystemDifficulties executes: the overview query
followed by one per-system enumeration per distinct rating system. -/
def fetchRatingSystemDifficultiesQueries (t : List DiffEntry) : List (List Frag) :=
  ratingSystemsQuery :: (distinctSystems t).map difficultyListQuery

/-! ### Keyword-argument helpers -/

/-- Criteria mappings are association lists from criterion name to raw value. -/
abbrev Kwargs := List (String × String)

/-- Lower-case every key (processFilters line 341). -/
def lowerKeys (kw : Kwargs) : Kwargs := kw.map (fun p => (pyLower p.1, p.2))

/-- Python key-in-dict test. -/
def hasKey (kw : Kwargs) (k : String) : Bool := kw.any (fun p => p.1 = k)

/-- Python dict get returning an option. -/
def getVal (kw : Kwargs) (k : String) : Option String :=
  (kw.find? (fun p => p.1 = k)).map (·.2)

/-- Python dict subscript where the key is known to be present. -/
def getValD (kw : Kwargs) (k : String) : String := (getVal kw k).getD ""

/-- Python truthiness of an optional string (None and the empty string are
falsy). -/
def truthy (o : Option String) : Bool :=
  match o with
  | none => false
  | some s => s ≠ ""

/-- Python or-expression over two optional strings: the first if truthy,
otherwise the second verbatim. -/
def orVal (a b : Option String) : Option String := if truthy a then a else b

/-- Python membership of an optional string in a token list (None is never a
member). -/
def memPat (pat : Option String) (l : List String) : Bool :=
  match pat with
  | some s => l.contains s
  | none => false

/-! ### The difficulty block (processFilters lines 345-430) -/

/-- Python dict subscript on the rating-system dictionary: a missing key is
a KeyError. -/
def dictGet (d : List (String × List String)) (k : String) :
    Except PipeError (List String) :=
  match d.find? (fun p => p.1 = k) with
  | some p => .ok p.2
  | none => .error (.keyError k)

/-- Scale-family detection (lines 352-370): membership of the pattern in each
family token list, checked in the fixed source order. -/
def sysCodeOf (fams : List (String × List String)) (pat : Option String) :
    Except PipeError String :=
  match dictGet fams "Yosemite Decimal" with
  | .error e => .error e
  | .ok yds =>
  if memPat pat yds then .ok "YDS" else
  match dictGet fams "V Scale" with
  | .error e => .error e
  | .ok vsc =>
  if memPat pat vsc then .ok "V" else
  match dictGet fams "Winter Ice" with
  | .error e => .error e
  | .ok wi =>
  if memPat pat wi then .ok "WI" else
  match dictGet fams "Alpine Ice" with
  | .error e => .error e
  | .ok ai =>
  if memPat pat ai then .ok "AI" else
  match dictGet fams "Mixed" with
  | .error e => .error e
  | .ok mx =>
  if memPat pat mx then .ok "M" else
  match dictGet fams "Snow" with
  | .error e => .error e
  | .ok sn =>
  if memPat pat sn then .ok "Snow" else
  match dictGet fams "Aid" with
  | .error e => .error e
  | .ok ad =>
  if memPat pat ad then .ok "A" else
  match dictGet fams "Clean Aid" with
  | .error e => .error e
  | .ok ca =>
  if memPat pat ca then .ok "C" else
  .error (.unknownDifficulty (pat.getD "None"))

/-- Rank of an explicit difficulty token in a rating system: first row of the
parameterized reference lookup. -/
def rankOfToken (t : List DiffEntry) (tok rs : String) : Option Int :=
  ((t.filter (fun e => e.difficulty = tok && e.ratingSystem = rs)).head?).map (·.ranking)

/-- Aggregate minimum rank of a rating system (null on no rows). -/
def minRank (t : List DiffEntry) (rs : String) : Option Int :=
  ((t.filter (fun e => e.ratingSystem = rs)).map (·.ranking)).min?

/-- Aggregate maximum rank of a rating system (null on no rows). -/
def maxRank (t : List DiffEntry) (rs : String) : Option Int :=
  ((t.filter (fun e => e.ratingSystem = rs)).map (·.ranking)).max?

/-- A nullable rank as a bound parameter value. -/
def valOfRank : Option Int → Val
  | some r => .int r
  | none => .null

/-- The difficulty-range block.  Detects the family from the low bound (or
the high bound when the low is absent), resolves each bound to a rank (an
explicit token that finds no row subscripts None, the aggregate defaults
never do), then appends the reference join and the three rank predicates. -/
def difficultyBlock (env : Env) (kw : Kwargs) (st : BuildState) :
    Except PipeError BuildState :=
  if hasKey kw "routedifficultylow" || hasKey kw "routedifficultyhigh" then
    match sysCodeOf (fetchRatingSystemDifficulties env.diffTable)
            (orVal (getVal kw "routedifficultylow") (getVal kw "routedifficultyhigh")) with
    | .error e => .error e
    | .ok rsc =>
      match (if truthy (getVal kw "routedifficultylow") then
               (rankOfToken env.diffTable (getValD kw "routedifficultylow") rsc).map Val.int
             else some (valOfRank (minRank env.diffTable rsc))) with
      | none => .error .noneSubscript
      | some dLow =>
      match (if truthy (getVal kw "routedifficultyhigh") then
               (rankOfToken env.diffTable (getValD kw "routedifficultyhigh") rsc).map Val.int
             else some (valOfRank (maxRank env.diffTable rsc))) with
      | none => .error .noneSubscript
      | some dHigh =>
        .ok (extendState st [.diffJoin] [.diffHigh, .diffLow, .diffSystem]
              [("difficultyHigh", dHigh), ("difficultyLow", dLow), ("ratingSystem", .str rsc)])
  else .ok st

/-! ### The type block (lines 432-468) -/

/-- Categories recognized in the lowered type value, in source order. -/
def catsOf (ty : String) : List TypeCat :=
  (if containsSub ty "trad" then [TypeCat.trad] else []) ++
  (if containsSub ty "aid" then [TypeCat.aid] else []) ++
  (if containsSub ty "sport" then [TypeCat.sport] else []) ++
  (if containsSub ty "boulder" then [TypeCat.boulder] else []) ++
  (if containsSub ty "top rope" then [TypeCat.topRope] else []) ++
  (if containsSub ty "alpine" then [TypeCat.alpine] else []) ++
  (if containsSub ty "ice" then [TypeCat.ice] else []) ++
  (if containsSub ty "snow" then [TypeCat.snow] else []) ++
  (if containsSub ty "mixed" then [TypeCat.mixed] else [])

/-- The type-filter block: an empty disjunction is the invalid-route-type
error, otherwise one composite clause is appended. -/
def typeBlock (kw : Kwargs) (st : BuildState) : Except PipeError BuildState :=
  if hasKey kw "type" then
    if (catsOf (pyLower (getValD kw "type"))).isEmpty then .error .invalidRouteType
    else .ok (extendState st [] [.typeFilter (catsOf (pyLower (getValD kw "type")))] [])
  else .ok st

/-! ### The severity block (lines 470-487) -/

/-- First row of the parameterized severity rank lookup. -/
def sevRankOf (t : List SevEntry) (tok : String) : Option Int :=
  ((t.filter (fun e => e.severity = tok)).head?).map (·.ranking)

/-- The severity block: resolve the uppercased threshold to a rank (no row
subscripts None), join the severity reference and bound the rank above. -/
def severityBlock (env : Env) (kw : Kwargs) (st : BuildState) :
    Except PipeError BuildState :=
  if hasKey kw "severitythreshold" then
    match sevRankOf env.sevTable (pyUpper (getValD kw "severitythreshold")) with
    | none => .error .noneSubscript
    | some r => .ok (extendState st [.sevJoin] [.sevLe] [("severity", .int r)])
  else .ok st

/-! ### The numeric range blocks (lines 489-620) -/

/-- The lowered criteria-mapping key of each numeric criterion. -/
def critKey : NumCrit → String
  | .height => "height"
  | .pitches => "pitches"
  | .grade => "grade"
  | .averageRating => "averagerating"
  | .voteCount => "votecount"
  | .elevation => "elevation"

/-- Only pitches and grade recognize the exact-match equals marker. -/
def allowEq : NumCrit → Bool
  | .pitches => true
  | .grade => true
  | _ => false

/-- Strip the range markers as the source does: strip dash, then plus, then
(for pitches and grade) equals. -/
def stripMarkers (withEq : Bool) (t : String) : String :=
  let a := pyStripChar '+' (pyStripChar '-' t)
  if withEq then pyStripChar '=' a else a

/-- Comparison direction read from the trailing marker of a numeric value
(dash checked before equals, default greater-equal). -/
def numericSuffixOp (withEq : Bool) (t : String) : CmpOp :=
  if pyEndsWith t '-' then CmpOp.le
  else if withEq && pyEndsWith t '=' then CmpOp.eq
  else CmpOp.ge

/-- Parse one numeric criterion value: lower and strip it, read the trailing
marker, strip markers and parse the remainder as a float. -/
def numericBlockVal (withEq : Bool) (raw : String) : Option (CmpOp × PyNum) :=
  (parseFloat (stripMarkers withEq (pyStripWs (pyLower raw)))).map
    (fun v => (numericSuffixOp withEq (pyStripWs (pyLower raw)), v))

/-- One numeric range block: parse the value, append the comparison clause
and its parameter; elevation also joins the owning-area relation. -/
def numBlock (c : NumCrit) (kw : Kwargs) (st : BuildState) :
    Except PipeError BuildState :=
  if hasKey kw (critKey c) then
    match numericBlockVal (allowEq c) (getValD kw (critKey c)) with
    | none => .error (.invalidNumber c)
    | some pr =>
        .ok (extendState st (if c = NumCrit.elevation then [.elevJoin] else [])
              [.numCmp c pr.1] [(paramName c, .num pr.2)])
  else .ok st

/-! ### The geospatial block (lines 622-721) -/

/-- First run of digits in a route or area URL (re-search for digits). -/
def extractId (s : String) : Option Int :=
  let run := (s.data.dropWhile (fun c => !c.isDigit)).takeWhile (fun c => c.isDigit)
  if run.isEmpty then none else some ((digitsVal run : Nat) : Int)

/-- The six keys that activate the geospatial path (line 622). -/
def geoKeys : List String :=
  ["city", "state", "latitude", "longitude", "radius", "proximityroute"]

/-- Resolve coordinates through the three location shapes in source order:
city and state by geocoding, then explicit latitude and longitude, then a
proximity route or area; each shape requires its companions and radius. -/
def resolveLatLong (env : Env) (kw : Kwargs) : Except PipeError (PyNum × PyNum) :=
  match (if hasKey kw "city" || hasKey kw "state" then
           if !(hasKey kw "city" && hasKey kw "state" && hasKey kw "radius") then
             Except.error PipeError.cityStateRadius
           else match env.geocode (pyStripWs (getValD kw "city") ++ ", " ++
                                   pyStripWs (getValD kw "state")) with
             | none => .error .locationNotFound
             | some p => .ok (some p)
         else .ok none) with
  | .error e => .error e
  | .ok r1 =>
  match (if r1.isNone && (hasKey kw "latitude" || hasKey kw "longitude") then
           if !(hasKey kw "latitude" && hasKey kw "longitude" && hasKey kw "radius") then
             Except.error PipeError.latLongRadius
           else match parseFloat (getValD kw "latitude"), parseFloat (getValD kw "longitude") with
             | some la, some lo => .ok (some (la, lo))
             | _, _ => .error .floatValueError
         else .ok r1) with
  | .error e => .error e
  | .ok r2 =>
  match (if r2.isNone && hasKey kw "proximityroute" then
           if !(hasKey kw "radius") then Except.error PipeError.proximityRadius
           else match extractId (getValD kw "proximityroute") with
             | none => .error .cannotParseRouteId
             | some rid => match env.routeLatLong rid with
               | none => .error .noneSubscript
               | some p => .ok (some p)
         else .ok r2) with
  | .error e => .error e
  | .ok (some p) => .ok p
  | .ok none => .error .noLatLong

/-- Distance comparison direction from the radius marker: a trailing plus
means at-least-distance, the default is within-distance (lines 678-681). -/
def radiusOp (rt : String) : CmpOp := if pyEndsWith rt '+' then CmpOp.ge else CmpOp.le

/-- The radius value with its markers stripped (line 683). -/
def radiusStr (rt : String) : String := pyStripChar '+' (pyStripChar '-' rt)

/-- The distance units value, defaulted to miles (line 685). -/
def distanceUnitsOf (kw : Kwargs) : String :=
  if hasKey kw "distanceunits" then pyLower (getValD kw "distanceunits") else "miles"

/-- Accepted distance unit spellings (line 686). -/
def validUnits (du : String) : Bool :=
  du = "mi" || du = "miles" || du = "km" || du = "kilometers"

/-- Earth radius constant in the selected units (lines 689-692). -/
def earthRadiusOf (du : String) : PyNum :=
  if du = "km" || du = "kilometers" then ⟨63710, 1⟩ else ⟨39588, 1⟩

/-- The geospatial block: resolve coordinates, read the radius marker,
validate distance units, choose the Earth radius, then append the distance
join, the coordinate null-checks, the generic-area exclusion and the
distance bound. -/
def geoBlock (env : Env) (kw : Kwargs) (st : BuildState) :
    Except PipeError BuildState :=
  if geoKeys.any (fun k => hasKey kw k) then
    match resolveLatLong env kw with
    | .error e => .error e
    | .ok ll =>
      if !(validUnits (distanceUnitsOf kw)) then .error .invalidDistanceUnits
      else
        match parseFloat (radiusStr (pyStripWs (pyLower (getValD kw "radius")))) with
        | none => .error .invalidRadius
        | some rv =>
            .ok (extendState st [.geoJoin]
                  [.latNotNull, .lonNotNull, .notGenericArea,
                   .distCmp (radiusOp (pyStripWs (pyLower (getValD kw "radius"))))]
                  [("earthRadius", .num (earthRadiusOf (distanceUnitsOf kw))),
                   ("latitude", .num ll.1), ("longitude", .num ll.2), ("radius", .num rv)])
  else .ok st

/-! ### processFilters (lines 323-722) -/

/-- Sequencing of blocks: an error aborts compilation. -/
def pfStep (x : Except PipeError BuildState)
    (f : BuildState → Except PipeError BuildState) : Except PipeError BuildState :=
  match x with
  | .error e => .error e
  | .ok s => f s

/-- The filter compiler.  An empty criteria mapping short-circuits to the
bare unfiltered plan with a None parameter mapping (line 335); otherwise the
keys are lowered and the blocks run in source order. -/
def processFilters (env : Env) (kwargs : Kwargs) : Except PipeError Plan :=
  if kwargs.isEmpty then .ok ⟨[], [.baseBare], none⟩
  else
    match pfStep (difficultyBlock env (lowerKeys kwargs) ⟨[], [.base], []⟩) (fun s1 =>
          pfStep (typeBlock (lowerKeys kwargs) s1) (fun s2 =>
          pfStep (severityBlock env (lowerKeys kwargs) s2) (fun s3 =>
          pfStep (numBlock .height (lowerKeys kwargs) s3) (fun s4 =>
          pfStep (numBlock .pitches (lowerKeys kwargs) s4) (fun s5 =>
          pfStep (numBlock .grade (lowerKeys kwargs) s5) (fun s6 =>
          pfStep (numBlock .averageRating (lowerKeys kwargs) s6) (fun s7 =>
          pfStep (numBlock .voteCount (lowerKeys kwargs) s7) (fun s8 =>
          pfStep (numBlock .elevation (lowerKeys kwargs) s8) (fun s9 =>
          geoBlock env (lowerKeys kwargs) s9))))))))) with
    | .error e => .error e
    | .ok s => .ok ⟨s.joins, s.wheres, some s.params⟩

/-! ### validateKeywordArgs and fetchRoutes (lines 724-791) -/

/-- The allowed criteria names, as spelled in the source set literal. -/
def allowedKeywords : List String :=
  ["parentAreaName", "routeDifficultyLow", "routeDifficultyHigh", "type", "height",
   "pitches", "grade", "severitythreshold", "averageRating", "elevation", "voteCount",
   "city", "state", "latitude", "longitude", "radius", "proximityRoute", "distanceUnits"]

/-- Keyword validation: every offending name is listed in the error. -/
def validateKeywordArgs (kw : Kwargs) : Except PipeError Unit :=
  let allowed := allowedKeywords.map pyLower
  let bad := (kw.filter (fun p => !(allowed.contains (pyLower p.1)))).map (·.1)
  if bad.isEmpty then .ok () else .error (.invalidKeywords bad)

/-- The query produced by fetchRoutes before execution: the compiled plan
plus whether the recursive sub-area scope is active, with the parent-area
like-pattern added to the parameters when it is. -/
structure FetchQuery where
  joins : List JoinItem
  wheres : List WhereItem
  params : Option (List (String × Val))
  areaScoped : Bool
deriving DecidableEq, Repr

/-- fetchRoutes up to query construction: validate the keywords, compile the
filters, then read the parentAreaName value.  The presence test lowers every
key (line 791) but the subscript uses the exact camel-case spelling, so any
other casing of the key raises a KeyError. -/
def fetchRoutesPlan (env : Env) (kwargs : Kwargs) : Except PipeError FetchQuery :=
  match validateKeywordArgs kwargs with
  | .error e => .error e
  | .ok _ =>
  match processFilters env kwargs with
  | .error e => .error e
  | .ok plan =>
  if (kwargs.map (fun p => pyLower p.1)).contains "parentareaname" then
    match getVal kwargs "parentAreaName" with
    | none => .error (.keyError "parentAreaName")
    | some v =>
      match plan.params with
      | some ps =>
          .ok ⟨plan.joins, plan.wheres,
               some (ps ++ [("parentAreaName", .str ("%" ++ pyLower v ++ "%"))]), true⟩
      | none => .error .noneSubscript
  else .ok ⟨plan.joins, plan.wheres, plan.params, false⟩

/-! ### Evaluation semantics of compiled clause units -/

/-- Truth of one type-category disjunct on a route type tag, translated from
the SQL emitted at lines 436-461 (like is substring containment on the
lowered tag). -/
def evalCat (tag : String) : TypeCat → Bool
  | .trad => containsSub (pyLower tag) "trad" && !containsSub (pyLower tag) "aid" &&
      !containsSub (pyLower tag) "mixed" && !containsSub (pyLower tag) "ice" &&
      !containsSub (pyLower tag) "snow"
  | .aid => containsSub (pyLower tag) "aid"
  | .sport => containsSub (pyLower tag) "sport" && !containsSub (pyLower tag) "trad" &&
      !containsSub (pyLower tag) "aid" && !containsSub (pyLower tag) "mixed" &&
      !containsSub (pyLower tag) "ice" && !containsSub (pyLower tag) "snow"
  | .boulder => containsSub (pyLower tag) "boulder" && !containsSub (pyLower tag) "trad"
  | .topRope => containsSub (pyLower tag) "top rope"
  | .alpine => containsSub (pyLower tag) "alpine"
  | .ice => containsSub (pyLower tag) "ice"
  | .snow => containsSub (pyLower tag) "snow"
  | .mixed => containsSub (pyLower tag) "mixed"

/-- Truth of the whole compiled type filter: false or-ed with each disjunct. -/
def evalTypeFilter (cats : List TypeCat) (tag : String) : Bool :=
  cats.any (evalCat tag)

/-- Truth of the compiled severity unit on a route: the inner join against
the severity reference on coalesce(r.Severity, G) composed with the rank
ceiling predicate.  A route with no matching reference row is dropped by
the join. -/
def sevKeeps (t : List SevEntry) (threshold : Int) (routeSev : Option String) : Bool :=
  (t.filter (fun e => e.severity = routeSev.getD "G")).any (fun e => e.ranking ≤ threshold)

/-! ### Injection-safety notions -/

/-- Literal text fragments of a rendered query. -/
def litFrags (l : List Frag) : List String :=
  l.filterMap (fun f => match f with | .lit s => some s | .param _ => none)

/-- Parameter placeholder names of a rendered query. -/
def paramRefs (l : List Frag) : List String :=
  l.filterMap (fun f => match f with | .param n => some n | .lit _ => none)

/-- Every type category. -/
def allCats : List TypeCat :=
  [.trad, .aid, .sport, .boulder, .topRope, .alpine, .ice, .snow, .mixed]

/-- Every numeric criterion. -/
def allNumCrits : List NumCrit :=
  [.height, .pitches, .grade, .averageRating, .voteCount, .elevation]

/-- Every comparison operator. -/
def allOps : List CmpOp := [.ge, .le, .eq]

/-- The closed set of literal texts processFilters can ever emit: fixed
source strings only, never a criteria value. -/
def constantTexts : List String :=
  ["where true", "where true ", ") ",
   "and (ref.DifficultyRanking <= ", "and (ref.DifficultyRanking >= ",
   "and (ref.RatingSystem = ", "and (false ", "and (sev.SeverityRanking <= ",
   "and (a.Latitude is not null) ", "and (a.Longitude is not null) ",
   "and (a.AreaId != 112166257) ",
   diffJoinText, sevJoinText, elevJoinText,
   geoJoinLit0, geoJoinLit1, geoJoinLit2, geoJoinLit3, geoJoinLit4] ++
  allCats.map catText ++
  (allNumCrits.map (fun c =>
    allOps.map (fun op => "and (" ++ colName c op ++ " " ++ opText op ++ " "))).flatten ++
  allOps.map (fun op => "and (d.Distance " ++ opText op ++ " ")

/-- Literal texts of a whole plan. -/
def planLits (p : Plan) : List String := litFrags (renderPlan p)

/-- Parameter placeholders referenced by a whole plan. -/
def planRefs (p : Plan) : List String := paramRefs (renderPlan p)

/-- Names bound in the plan parameter mapping. -/
def boundNames (p : Plan) : List String := (p.params.getD []).map (·.1)

/-- Injection safety of a compiled plan: every literal fragment is one of
the fixed source texts (so no criteria value is concatenated into the query)
and every parameter placeholder is bound in the parameter mapping. -/
def injectionSafeB (p : Plan) : Bool :=
  (planLits p).all (fun s => constantTexts.contains s) &&
  (planRefs p).all (fun n => (boundNames p).contains n)

/-- The parameterized reference lookups run by the compiler during
difficulty and severity compilation. -/
def parameterizedLookupQueries : List (List Frag) :=
  [rankLowQuery, rankHighQuery, minRankQuery, maxRankQuery, severityRankQuery]

/-- The rank and severity lookups bind their lookup values as the expected
named parameters (the token and rating-system values appear only as
placeholders, never in the literal text of those queries). -/
def internalLookupsParameterized : Bool :=
  decide (paramRefs rankLowQuery = ["routeDifficultyLow", "ratingSystem"]) &&
  decide (paramRefs rankHighQuery = ["routeDifficultyHigh", "ratingSystem"]) &&
  decide (paramRefs minRankQuery = ["ratingSystem"]) &&
  decide (paramRefs maxRankQuery = ["ratingSystem"]) &&
  decide (paramRefs severityRankQuery = ["severityThreshold"])

/-- Parameter-coverage invariant of the build state: every placeholder
referenced by the rendered joins and clauses is bound in the parameters. -/
def stParamsOk (st : BuildState) : Prop :=
  ∀ n, n ∈ paramRefs (renderJoins st.joins ++ renderWhere st.wheres) →
    n ∈ st.params.map (·.1)

/-! ### Concrete fixtures for witnesses and counterexamples -/

/-- A small difficulty reference with every rating system populated. -/
def wDiffTable : List DiffEntry :=
  [⟨"YDS", "5.8", 800⟩, ⟨"YDS", "5.10a", 1000⟩, ⟨"V", "V2", 20200⟩,
   ⟨"WI", "WI3", 30300⟩, ⟨"AI", "AI2", 40200⟩, ⟨"M", "M4", 50400⟩,
   ⟨"Snow", "Steep Snow", 60100⟩, ⟨"A", "A2", 70200⟩, ⟨"C", "C2", 80200⟩]

/-- A small severity reference on the usual movie-style scale. -/
def wSevTable : List SevEntry :=
  [⟨"G", 0⟩, ⟨"PG", 5⟩, ⟨"PG13", 10⟩, ⟨"R", 15⟩, ⟨"X", 20⟩]

/-- Geocoder fixture: knows one city-state query. -/
def wGeocode (q : String) : Option (PyNum × PyNum) :=
  if q = "Boulder, Colorado" then some (⟨40, 0⟩, ⟨-105, 0⟩) else none

/-- Concrete environment for witnesses. -/
def wEnv : Env := ⟨wDiffTable, wSevTable, wGeocode, fun _ => none⟩

/-- Trivial environment for counterexamples that never touch collaborators. -/
def cEnv : Env := ⟨[], [], fun _ => none, fun _ => none⟩

/-- The eight rating-system codes of the reference data. -/
def eightCodes : List String := ["YDS", "V", "WI", "AI", "M", "Snow", "A", "C"]

/-! ### Helper lemmas about the string primitives -/

theorem dropWhile_append_one (p : Char → Bool) (l : List Char) (c : Char) (h : p c = false) :
    (l ++ [c]).dropWhile p = l.dropWhile p ++ [c] := by
  induction l with
  | nil => simp [List.dropWhile_cons, h]
  | cons a t ih =>
      by_cases ha : p a <;> simp [List.dropWhile_cons, ha, ih]

theorem dropTrail_append_one_false (p : Char → Bool) (l : List Char) (c : Char)
    (h : p c = false) : dropTrail p (l ++ [c]) = l ++ [c] := by
  simp [dropTrail, List.reverse_append, List.dropWhile_cons, h]

theorem dropTrail_append_one_true (p : Char → Bool) (l : List Char) (c : Char)
    (h : p c = true) : dropTrail p (l ++ [c]) = dropTrail p l := by
  simp [dropTrail, List.reverse_append, List.dropWhile_cons, h]

theorem dropTrail_eq_self (p : Char → Bool) (l : List Char)
    (h : ∀ d, l.getLast? = some d → p d = false) : dropTrail p l = l := by
  rcases hl : l.reverse with _ | ⟨d, r⟩
  · have hnil : l = [] := by simpa using congrArg List.reverse hl
    simp [hnil, dropTrail]
  · have hd : l.getLast? = some d := by
      rw [← List.head?_reverse, hl]; rfl
    have hpd : p d = false := h d hd
    calc dropTrail p l = ((d :: r).dropWhile p).reverse := by rw [dropTrail, hl]
    _ = (d :: r).reverse := by rw [List.dropWhile_cons, hpd]; simp
    _ = l := by rw [← hl, List.reverse_reverse]

theorem stripCharL_append_self (c : Char) (l : List Char) :
    stripCharL c (l ++ [c]) = stripCharL c l := by
  unfold stripCharL
  rw [dropTrail_append_one_true]
  simp

theorem stripCharL_append_other (b c : Char) (l : List Char) (hbc : (b = c) = False)
    (hlast : ∀ d, l.getLast? = some d → (d = c) = False) :
    stripCharL c (l ++ [b]) = stripCharL c l ++ [b] := by
  unfold stripCharL
  rw [dropTrail_append_one_false _ _ _ (by simp [hbc]),
      dropTrail_eq_self _ _ (fun d hd => by simp [hlast d hd]),
      dropWhile_append_one _ _ _ (by simp [hbc])]

theorem stripWsL_append_one (l : List Char) (c : Char) (hc : isWsChar c = false)
    (hws : dropTrail isWsChar l = l) : stripWsL (l ++ [c]) = stripWsL l ++ [c] := by
  unfold stripWsL
  rw [dropTrail_append_one_false _ _ _ hc, hws, dropWhile_append_one _ _ _ hc]

theorem pyLower_append (s t : String) : pyLower (s ++ t) = pyLower s ++ pyLower t := by
  show String.mk _ = String.mk _
  simp [String.data_append]

theorem pyStripWs_data (s : String) : (pyStripWs s).data = stripWsL s.data := rfl

theorem pyEndsWith_append_one (t : String) (c d : Char) :
    pyEndsWith (t ++ ⟨[c]⟩) d = decide (c = d) := by
  unfold pyEndsWith
  rw [String.data_append]
  show ((t.data ++ [c]).getLast? = some d : Bool) = _
  rw [List.getLast?_concat]
  by_cases hcd : c = d <;> simp [hcd]

theorem pyStripChar_append_self (c : Char) (s : String) :
    pyStripChar c (s ++ ⟨[c]⟩) = pyStripChar c s := by
  show String.mk _ = String.mk _
  rw [String.data_append]
  exact congrArg String.mk (stripCharL_append_self c s.data)

theorem pyStripChar_append_other (b c : Char) (s : String) (hbc : (b = c) = False)
    (hlast : pyEndsWith s c = false) :
    pyStripChar c (s ++ ⟨[b]⟩) = pyStripChar c s ++ ⟨[b]⟩ := by
  have hne : ¬(s.data.getLast? = some c) := by
    have hl := hlast
    unfold pyEndsWith at hl
    exact of_decide_eq_false hl
  have harg : ∀ d, s.data.getLast? = some d → (d = c) = False := by
    intro d hd
    by_cases hdc : d = c
    · exact absurd (hdc ▸ hd) hne
    · simp [hdc]
  exact congrArg String.mk (stripCharL_append_other b c s.data hbc harg)

theorem pyStripWs_append_one (s : String) (c : Char) (hc : isWsChar c = false)
    (hws : dropTrail isWsChar s.data = s.data) :
    pyStripWs (s ++ ⟨[c]⟩) = pyStripWs s ++ ⟨[c]⟩ :=
  congrArg String.mk (stripWsL_append_one s.data c hc hws)

theorem stripMarkers_append_plus (withEq : Bool) (t : String)
    (hm : pyEndsWith t '-' = false) :
    stripMarkers withEq (t ++ "+") = stripMarkers withEq t := by
  have h1 : pyStripChar '-' (t ++ "+") = pyStripChar '-' t ++ "+" :=
    pyStripChar_append_other '+' '-' t (by simp) hm
  have h2 : pyStripChar '+' (pyStripChar '-' t ++ "+") = pyStripChar '+' (pyStripChar '-' t) :=
    pyStripChar_append_self '+' (pyStripChar '-' t)
  unfold stripMarkers
  rw [h1, h2]

theorem numericSuffixOp_append_plus (withEq : Bool) (t : String) :
    numericSuffixOp withEq (t ++ "+") = CmpOp.ge := by
  unfold numericSuffixOp
  rw [show ((t ++ "+" : String)) = t ++ (⟨['+']⟩ : String) from rfl,
      pyEndsWith_append_one, pyEndsWith_append_one]
  simp

theorem numericSuffixOp_plain (withEq : Bool) (t : String)
    (hm : pyEndsWith t '-' = false) (he : pyEndsWith t '=' = false) :
    numericSuffixOp withEq t = CmpOp.ge := by
  unfold numericSuffixOp
  rw [hm, he]
  simp

theorem numericBlockVal_append_plus (withEq : Bool) (s : String)
    (hws : dropTrail isWsChar (pyLower s).data = (pyLower s).data)
    (hm : pyEndsWith (pyStripWs (pyLower s)) '-' = false)
    (he : pyEndsWith (pyStripWs (pyLower s)) '=' = false) :
    numericBlockVal withEq (s ++ "+") = numericBlockVal withEq s := by
  have h1 : pyLower (s ++ "+") = pyLower s ++ "+" := by
    rw [pyLower_append]
    rfl
  have h2 : pyStripWs (pyLower (s ++ "+")) = pyStripWs (pyLower s) ++ "+" := by
    rw [h1]
    exact pyStripWs_append_one (pyLower s) '+' (by decide) hws
  unfold numericBlockVal
  rw [h2, numericSuffixOp_append_plus, stripMarkers_append_plus withEq _ hm,
      numericSuffixOp_plain withEq _ hm he]

theorem radiusOp_append_dash (t : String) : radiusOp (t ++ "-") = CmpOp.le := by
  unfold radiusOp
  rw [show ((t ++ "-" : String)) = t ++ (⟨['-']⟩ : String) from rfl, pyEndsWith_append_one]
  simp

theorem radiusOp_plain (t : String) (h : pyEndsWith t '+' = false) : radiusOp t = CmpOp.le := by
  unfold radiusOp
  rw [h]
  simp

theorem radiusStr_append_dash (t : String) : radiusStr (t ++ "-") = radiusStr t := by
  unfold radiusStr
  rw [show ((t ++ "-" : String)) = t ++ (⟨['-']⟩ : String) from rfl,
      pyStripChar_append_self '-' t]

/-! ### Evaluation lemmas for processFilters on single-criterion mappings -/

theorem pf_num_eq (env : Env) (c : NumCrit) (s : String) :
    processFilters env [(critKey c, s)] =
      match numericBlockVal (allowEq c) s with
      | none => Except.error (PipeError.invalidNumber c)
      | some pr => Except.ok ⟨(if c = NumCrit.elevation then [JoinItem.elevJoin] else []),
          [WhereItem.base, WhereItem.numCmp c pr.1], some [(paramName c, Val.num pr.2)]⟩ := by
  cases c <;> split <;> rename_i hv <;> simp only [allowEq] at hv <;>
    simp [processFilters, pfStep, difficultyBlock, typeBlock, severityBlock, numBlock,
          geoBlock, lowerKeys, hasKey, getValD, getVal, critKey, allowEq, geoKeys,
          memPat, paramName, extendState, hv,
          show pyLower "height" = "height" from rfl,
          show pyLower "pitches" = "pitches" from rfl,
          show pyLower "grade" = "grade" from rfl,
          show pyLower "averagerating" = "averagerating" from rfl,
          show pyLower "votecount" = "votecount" from rfl,
          show pyLower "elevation" = "elevation" from rfl]

theorem pf_type_eq (env : Env) (s : String) :
    processFilters env [("type", s)] =
      (if (catsOf (pyLower s)).isEmpty then Except.error PipeError.invalidRouteType
       else Except.ok ⟨[], [WhereItem.base, WhereItem.typeFilter (catsOf (pyLower s))],
            some []⟩) := by
  by_cases hc : (catsOf (pyLower s)).isEmpty <;>
    simp [processFilters, pfStep, difficultyBlock, typeBlock, severityBlock, numBlock,
          geoBlock, lowerKeys, hasKey, getValD, getVal, critKey, geoKeys,
          memPat, extendState, hc,
          show pyLower "type" = "type" from rfl]

theorem pf_sev_eq (env : Env) (s : String) :
    processFilters env [("severityThreshold", s)] =
      match sevRankOf env.sevTable (pyUpper s) with
      | none => Except.error PipeError.noneSubscript
      | some r => Except.ok ⟨[JoinItem.sevJoin], [WhereItem.base, WhereItem.sevLe],
          some [("severity", Val.int r)]⟩ := by
  cases hv : sevRankOf env.sevTable (pyUpper s) <;>
    simp [processFilters, pfStep, difficultyBlock, typeBlock, severityBlock, numBlock,
          geoBlock, lowerKeys, hasKey, getValD, getVal, critKey, geoKeys,
          memPat, extendState, hv,
          show pyLower "severityThreshold" = "severitythreshold" from rfl]

theorem pf_difficulty_eq (env : Env) (low high : String) :
    processFilters env [("routeDifficultyLow", low), ("routeDifficultyHigh", high)] =
      match difficultyBlock env [("routedifficultylow", low), ("routedifficultyhigh", high)]
              ⟨[], [.base], []⟩ with
      | .error e => .error e
      | .ok st => .ok ⟨st.joins, st.wheres, some st.params⟩ := by
  cases hv : difficultyBlock env [("routedifficultylow", low), ("routedifficultyhigh", high)]
      ⟨[], [.base], []⟩ <;>
    simp [processFilters, pfStep, typeBlock, severityBlock, numBlock,
          geoBlock, lowerKeys, hasKey, getValD, getVal, critKey, geoKeys,
          memPat, extendState, hv,
          show pyLower "routeDifficultyLow" = "routedifficultylow" from rfl,
          show pyLower "routeDifficultyHigh" = "routedifficultyhigh" from rfl]

theorem pf_latlonrad_eq (env : Env) (la lo r : String) :
    processFilters env [("latitude", la), ("longitude", lo), ("radius", r)] =
      match geoBlock env [("latitude", la), ("longitude", lo), ("radius", r)]
              ⟨[], [.base], []⟩ with
      | .error e => .error e
      | .ok st => .ok ⟨st.joins, st.wheres, some st.params⟩ := by
  cases hv : geoBlock env [("latitude", la), ("longitude", lo), ("radius", r)]
      ⟨[], [.base], []⟩ <;>
    simp [processFilters, pfStep, difficultyBlock, typeBlock, severityBlock, numBlock,
          lowerKeys, hasKey, getValD, getVal, critKey, memPat, extendState, hv,
          show pyLower "latitude" = "latitude" from rfl,
          show pyLower "longitude" = "longitude" from rfl,
          show pyLower "radius" = "radius" from rfl]

/-! ### Scale-family detection lemmas (for the mismatched-families claim) -/

theorem ratingSystemName_cases (a nm : String) (ha : ratingSystemName a = some nm) :
    (a, nm) ∈ [("YDS", "Yosemite Decimal"), ("V", "V Scale"), ("C", "Clean Aid"),
      ("A", "Aid"), ("Snow", "Snow"), ("AI", "Alpine Ice"), ("WI", "Winter Ice"),
      ("M", "Mixed")] := by
  unfold ratingSystemName at ha
  split_ifs at ha <;> simp_all

theorem ratingSystemName_inj (a b nm : String) (ha : ratingSystemName a = some nm)
    (hb : ratingSystemName b = some nm) : a = b := by
  have pa := ratingSystemName_cases a nm ha
  have pb := ratingSystemName_cases b nm hb
  simp only [List.mem_cons, List.not_mem_nil, or_false, Prod.mk.injEq] at pa pb
  rcases pa with hp | hp | hp | hp | hp | hp | hp | hp <;>
    obtain ⟨rfl, rfl⟩ := hp <;> simp_all

theorem find_fams_aux (T : List DiffEntry) (L : List String) (rs nm : String)
    (hn : ratingSystemName rs = some nm) (hL : rs ∈ L) :
    (L.filterMap (fun r => (ratingSystemName r).map (fun n => (n, famTokens T r)))).find?
      (fun p => p.1 = nm) = some (nm, famTokens T rs) := by
  induction L with
  | nil => cases hL
  | cons a t ih =>
    rcases List.mem_cons.mp hL with rfl | hmem
    · simp [List.filterMap_cons, hn, List.find?_cons]
    · cases hna : ratingSystemName a with
      | none => simp [List.filterMap_cons, hna, ih hmem]
      | some na =>
        by_cases heq : na = nm
        · have haro : a = rs := ratingSystemName_inj a rs nm (heq ▸ hna) hn
          subst haro
          have hnm : na = nm := heq
          rw [hn] at hna
          cases hna
          simp [List.filterMap_cons, hn, List.find?_cons]
        · simp [List.filterMap_cons, hna, List.find?_cons, heq, ih hmem]

theorem dictGet_fams (T : List DiffEntry) (rs nm : String)
    (hn : ratingSystemName rs = some nm) (hm : rs ∈ distinctSystems T) :
    dictGet (fetchRatingSystemDifficulties T) nm = .ok (famTokens T rs) := by
  unfold dictGet fetchRatingSystemDifficulties
  rw [find_fams_aux T (distinctSystems T) rs nm hn hm]

theorem memPat_true_of_mem {T : List DiffEntry} {tok rs : String}
    (h : tok ∈ famTokens T rs) : memPat (some tok) (famTokens T rs) = true := by
  simp [memPat, h]

theorem memPat_false_of_only {T : List DiffEntry} {tok rs1 rs : String}
    (honly : ∀ e ∈ T, e.difficulty = tok → e.ratingSystem = rs1) (hne : rs ≠ rs1) :
    memPat (some tok) (famTokens T rs) = false := by
  simp only [memPat]
  rw [List.contains_eq_any_beq]
  rw [List.any_eq_false]
  intro x hx
  simp only [famTokens, List.mem_map, List.mem_filter] at hx
  obtain ⟨e, ⟨heT, hprop⟩, hxd⟩ := hx
  simp only [Bool.and_eq_true, decide_eq_true_eq, bne_iff_ne, ne_eq] at hprop
  intro hbeq
  have hxtok : x = tok := (by simpa using hbeq : tok = x).symm
  have : e.ratingSystem = rs1 := honly e heT (by rw [hxd, hxtok])
  exact hne (by rw [← hprop.1, this])

theorem rankOfToken_isSome_of_mem {T : List DiffEntry} {tok rs : String}
    (h : tok ∈ famTokens T rs) : ∃ r, rankOfToken T tok rs = some r := by
  simp only [famTokens, List.mem_map, List.mem_filter] at h
  obtain ⟨e, ⟨heT, hprop⟩, hed⟩ := h
  simp only [Bool.and_eq_true, decide_eq_true_eq] at hprop
  have hnonnil : T.filter (fun x => x.difficulty = tok && x.ratingSystem = rs) ≠ [] := by
    intro hnil
    rw [List.filter_eq_nil_iff] at hnil
    exact hnil e heT (by simp [hed, hprop.1])
  cases hh : (T.filter (fun x => x.difficulty = tok && x.ratingSystem = rs)).head? with
  | none => exact absurd (List.head?_eq_none_iff.mp hh) hnonnil
  | some e2 => exact ⟨e2.ranking, by simp [rankOfToken, hh]⟩

theorem rankOfToken_none_of_only {T : List DiffEntry} {tok rs1 rs2 : String}
    (honly : ∀ e ∈ T, e.difficulty = tok → e.ratingSystem = rs2) (hne : rs1 ≠ rs2) :
    rankOfToken T tok rs1 = none := by
  have hnil : T.filter (fun x => x.difficulty = tok && x.ratingSystem = rs1) = [] := by
    rw [List.filter_eq_nil_iff]
    intro e heT
    simp only [Bool.and_eq_true, decide_eq_true_eq, not_and]
    intro hd
    intro hrs
    exact hne (by rw [← hrs, honly e heT hd])
  simp [rankOfToken, hnil]

theorem sysCodeOf_detects (T : List DiffEntry) (tok : String) (rs1 : String)
    (hmem : ∀ c ∈ eightCodes, c ∈ distinctSystems T)
    (h1 : rs1 ∈ eightCodes)
    (hin : tok ∈ famTokens T rs1)
    (honly : ∀ e ∈ T, e.difficulty = tok → e.ratingSystem = rs1) :
    sysCodeOf (fetchRatingSystemDifficulties T) (some tok) = .ok rs1 := by
  have hY := dictGet_fams T "YDS" "Yosemite Decimal" rfl (hmem _ (by simp [eightCodes]))
  have hV := dictGet_fams T "V" "V Scale" rfl (hmem _ (by simp [eightCodes]))
  have hW := dictGet_fams T "WI" "Winter Ice" rfl (hmem _ (by simp [eightCodes]))
  have hA := dictGet_fams T "AI" "Alpine Ice" rfl (hmem _ (by simp [eightCodes]))
  have hM := dictGet_fams T "M" "Mixed" rfl (hmem _ (by simp [eightCodes]))
  have hS := dictGet_fams T "Snow" "Snow" rfl (hmem _ (by simp [eightCodes]))
  have hAi := dictGet_fams T "A" "Aid" rfl (hmem _ (by simp [eightCodes]))
  have hC := dictGet_fams T "C" "Clean Aid" rfl (hmem _ (by simp [eightCodes]))
  have htrue := memPat_true_of_mem hin
  simp only [eightCodes, List.mem_cons, List.not_mem_nil, or_false] at h1
  unfold sysCodeOf
  rcases h1 with rfl | rfl | rfl | rfl | rfl | rfl | rfl | rfl
  · simp [hY, htrue]
  · simp [hY, hV, htrue,
      memPat_false_of_only honly (show ("YDS" : String) ≠ "V" by simp)]
  · simp [hY, hV, hW, htrue,
      memPat_false_of_only honly (show ("YDS" : String) ≠ "WI" by simp),
      memPat_false_of_only honly (show ("V" : String) ≠ "WI" by simp)]
  · simp [hY, hV, hW, hA, htrue,
      memPat_false_of_only honly (show ("YDS" : String) ≠ "AI" by simp),
      memPat_false_of_only honly (show ("V" : String) ≠ "AI" by simp),
      memPat_false_of_only honly (show ("WI" : String) ≠ "AI" by simp)]
  · simp [hY, hV, hW, hA, hM, htrue,
      memPat_false_of_only honly (show ("YDS" : String) ≠ "M" by simp),
      memPat_false_of_only honly (show ("V" : String) ≠ "M" by simp),
      memPat_false_of_only honly (show ("WI" : String) ≠ "M" by simp),
      memPat_false_of_only honly (show ("AI" : String) ≠ "M" by simp)]
  · simp [hY, hV, hW, hA, hM, hS, htrue,
      memPat_false_of_only honly (show ("YDS" : String) ≠ "Snow" by simp),
      memPat_false_of_only honly (show ("V" : String) ≠ "Snow" by simp),
      memPat_false_of_only honly (show ("WI" : String) ≠ "Snow" by simp),
      memPat_false_of_only honly (show ("AI" : String) ≠ "Snow" by simp),
      memPat_false_of_only honly (show ("M" : String) ≠ "Snow" by simp)]
  · simp [hY, hV, hW, hA, hM, hS, hAi, htrue,
      memPat_false_of_only honly (show ("YDS" : String) ≠ "A" by simp),
      memPat_false_of_only honly (show ("V" : String) ≠ "A" by simp),
      memPat_false_of_only honly (show ("WI" : String) ≠ "A" by simp),
      memPat_false_of_only honly (show ("AI" : String) ≠ "A" by simp),
      memPat_false_of_only honly (show ("M" : String) ≠ "A" by simp),
      memPat_false_of_only honly (show ("Snow" : String) ≠ "A" by simp)]
  · simp [hY, hV, hW, hA, hM, hS, hAi, hC, htrue,
      memPat_false_of_only honly (show ("YDS" : String) ≠ "C" by simp),
      memPat_false_of_only honly (show ("V" : String) ≠ "C" by simp),
      memPat_false_of_only honly (show ("WI" : String) ≠ "C" by simp),
      memPat_false_of_only honly (show ("AI" : String) ≠ "C" by simp),
      memPat_false_of_only honly (show ("M" : String) ≠ "C" by simp),
      memPat_false_of_only honly (show ("Snow" : String) ≠ "C" by simp),
      memPat_false_of_only honly (show ("A" : String) ≠ "C" by simp)]

/-! ### Claim theorems -/

/-- C2: for every pair of difficulty tokens belonging to two different scale
families of the reference table (each token only in its own family, all
eight families present), compiling with one as routeDifficultyLow and the
other as routeDifficultyHigh always aborts with an error - the failed
high-bound rank lookup subscripts None (the realization of the
IncompatibleScaleFamilies error) - and never produces a plan with a silently
wrong join. -/
theorem C2_mismatched_families_error (env : Env) (low high rs1 rs2 : String)
    (hmem : ∀ c ∈ eightCodes, c ∈ distinctSystems env.diffTable)
    (h1 : rs1 ∈ eightCodes)
    (hlowin : low ∈ famTokens env.diffTable rs1)
    (hlowonly : ∀ e ∈ env.diffTable, e.difficulty = low → e.ratingSystem = rs1)
    (hhighonly : ∀ e ∈ env.diffTable, e.difficulty = high → e.ratingSystem = rs2)
    (hne : rs1 ≠ rs2)
    (hlowne : low ≠ "") (hhighne : high ≠ "") :
    processFilters env [("routeDifficultyLow", low), ("routeDifficultyHigh", high)] =
      .error PipeError.noneSubscript := by
  rw [pf_difficulty_eq]
  have hsys := sysCodeOf_detects env.diffTable low rs1 hmem h1 hlowin hlowonly
  obtain ⟨rLow, hrl⟩ := rankOfToken_isSome_of_mem hlowin
  have hrh := rankOfToken_none_of_only hhighonly hne
  simp [difficultyBlock, hasKey, getVal, getValD, orVal, truthy, hlowne, hhighne,
        hsys, hrl, hrh]

/-- C2 witness: a concrete Yosemite Decimal low bound with a V-scale high
bound aborts compilation with the None-subscript error. -/
theorem C2_witness :
    processFilters wEnv [("routeDifficultyLow", "5.8"), ("routeDifficultyHigh", "V2")] =
      .error PipeError.noneSubscript :=
  C2_mismatched_families_error wEnv "5.8" "V2" "YDS" "V"
    (by decide) (by decide) (by decide) (by decide) (by decide) (by decide)
    (by decide) (by decide)

/-- C3: the full location precedence order.  First conjunct: when a criteria
mapping fully specifies a city/state shape together with explicit
latitude/longitude and a reference route, compilation succeeds and the bound
coordinate parameters are exactly the geocoded city/state point - the
explicit coordinates and the reference route are ignored (the conclusion
holds for arbitrary values of those keys and an arbitrary reference-lookup
collaborator).  Second conjunct: when city/state is absent and the mapping
fully specifies both explicit latitude/longitude and a reference route,
the bound coordinates are the explicit ones - the reference route is
ignored (arbitrary value, arbitrary collaborator).  In both cases no error
is raised for the conflict. -/
theorem C3_location_precedence :
    (∀ (env : Env) (city state la lo pr r : String) (glat glon rv : PyNum),
      env.geocode (pyStripWs city ++ ", " ++ pyStripWs state) = some (glat, glon) →
      parseFloat (radiusStr (pyStripWs (pyLower r))) = some rv →
      pyEndsWith (pyStripWs (pyLower r)) '+' = false →
      processFilters env
        [("city", city), ("state", state), ("latitude", la), ("longitude", lo),
         ("proximityRoute", pr), ("radius", r)] =
        .ok ⟨[.geoJoin], [.base, .latNotNull, .lonNotNull, .notGenericArea, .distCmp .le],
             some [("earthRadius", .num ⟨39588, 1⟩), ("latitude", .num glat),
                   ("longitude", .num glon), ("radius", .num rv)]⟩) ∧
    (∀ (env : Env) (la lo pr r : String) (vla vlo rv : PyNum),
      parseFloat la = some vla →
      parseFloat lo = some vlo →
      parseFloat (radiusStr (pyStripWs (pyLower r))) = some rv →
      pyEndsWith (pyStripWs (pyLower r)) '+' = false →
      processFilters env
        [("latitude", la), ("longitude", lo), ("proximityRoute", pr), ("radius", r)] =
        .ok ⟨[.geoJoin], [.base, .latNotNull, .lonNotNull, .notGenericArea, .distCmp .le],
             some [("earthRadius", .num ⟨39588, 1⟩), ("latitude", .num vla),
                   ("longitude", .num vlo), ("radius", .num rv)]⟩) := by
  constructor
  · intro env city state la lo pr r glat glon rv hg hrv hrop
    have hop := radiusOp_plain _ hrop
    simp [processFilters, pfStep, difficultyBlock, typeBlock, severityBlock, numBlock,
          geoBlock, resolveLatLong, lowerKeys, hasKey, getValD, getVal, critKey, geoKeys,
          memPat, extendState, distanceUnitsOf, validUnits, earthRadiusOf, hg, hrv, hop,
          show pyLower "city" = "city" from rfl,
          show pyLower "state" = "state" from rfl,
          show pyLower "latitude" = "latitude" from rfl,
          show pyLower "longitude" = "longitude" from rfl,
          show pyLower "proximityRoute" = "proximityroute" from rfl,
          show pyLower "radius" = "radius" from rfl]
  · intro env la lo pr r vla vlo rv hla hlo hrv hrop
    have hop := radiusOp_plain _ hrop
    simp [processFilters, pfStep, difficultyBlock, typeBlock, severityBlock, numBlock,
          geoBlock, resolveLatLong, lowerKeys, hasKey, getValD, getVal, critKey, geoKeys,
          memPat, extendState, distanceUnitsOf, validUnits, earthRadiusOf, hla, hlo,
          hrv, hop,
          show pyLower "latitude" = "latitude" from rfl,
          show pyLower "longitude" = "longitude" from rfl,
          show pyLower "proximityRoute" = "proximityroute" from rfl,
          show pyLower "radius" = "radius" from rfl]

/-- C3 witness: Boulder, Colorado geocodes to (40, -105) and wins over
explicit coordinates and a reference route; without city/state, the
explicit coordinates (39, -104) win over the reference route - whose
lookup in this environment would even fail, showing it is never consulted. -/
theorem C3_witness :
    processFilters wEnv
      [("city", "Boulder"), ("state", "Colorado"), ("latitude", "39"), ("longitude", "-104"),
       ("proximityRoute", "https:url/123"), ("radius", "30")] =
      .ok ⟨[.geoJoin], [.base, .latNotNull, .lonNotNull, .notGenericArea, .distCmp .le],
           some [("earthRadius", .num ⟨39588, 1⟩), ("latitude", .num ⟨40, 0⟩),
                 ("longitude", .num ⟨-105, 0⟩), ("radius", .num ⟨30, 0⟩)]⟩ ∧
    processFilters wEnv
      [("latitude", "39"), ("longitude", "-104"), ("proximityRoute", "https:url/123"),
       ("radius", "30")] =
      .ok ⟨[.geoJoin], [.base, .latNotNull, .lonNotNull, .notGenericArea, .distCmp .le],
           some [("earthRadius", .num ⟨39588, 1⟩), ("latitude", .num ⟨39, 0⟩),
                 ("longitude", .num ⟨-104, 0⟩), ("radius", .num ⟨30, 0⟩)]⟩ :=
  ⟨C3_location_precedence.1 wEnv "Boulder" "Colorado" "39" "-104" "https:url/123" "30"
     ⟨40, 0⟩ ⟨-105, 0⟩ ⟨30, 0⟩ (by decide) (by decide) (by decide),
   C3_location_precedence.2 wEnv "39" "-104" "https:url/123" "30"
     ⟨39, 0⟩ ⟨-104, 0⟩ ⟨30, 0⟩ (by decide) (by decide) (by decide) (by decide)⟩

/-- C6: compiling an empty criteria mapping succeeds with an empty join
fragment, the bare always-true predicate, and no parameter mapping; the
rendered join text is empty and the rendered predicate is the constant
always-true clause. -/
theorem C6_empty_criteria (env : Env) :
    processFilters env [] = .ok ⟨[], [.baseBare], none⟩ ∧
    textOf (renderJoins ([] : List JoinItem)) = "" ∧
    textOf (renderWhere [WhereItem.baseBare]) = "where true" :=
  ⟨rfl, rfl, rfl⟩

/-- C9: a pitches criterion whose value carries the trailing equals marker
compiles to the exact-equality comparison on the pitch count, not a
greater-equal or less-equal bound. -/
theorem C9_pitches_exact (env : Env) (s : String) (v : PyNum)
    (h1 : pyEndsWith (pyStripWs (pyLower s)) '-' = false)
    (h2 : pyEndsWith (pyStripWs (pyLower s)) '=' = true)
    (h3 : parseFloat (stripMarkers true (pyStripWs (pyLower s))) = some v) :
    processFilters env [("pitches", s)] =
      .ok ⟨[], [WhereItem.base, WhereItem.numCmp NumCrit.pitches CmpOp.eq],
           some [("pitches", Val.num v)]⟩ := by
  have hv : numericBlockVal true s = some (CmpOp.eq, v) := by
    unfold numericBlockVal numericSuffixOp
    rw [h1, h2, h3]
    simp
  have hpf := pf_num_eq env NumCrit.pitches s
  simp only [critKey, allowEq] at hpf
  rw [hpf, hv]
  simp [paramName]

/-- C9 witness: the pitches value 3= compiles to the exact-equality
predicate bound to three. -/
theorem C9_witness :
    processFilters wEnv [("pitches", "3=")] =
      .ok ⟨[], [WhereItem.base, WhereItem.numCmp NumCrit.pitches CmpOp.eq],
           some [("pitches", Val.num ⟨3, 0⟩)]⟩ :=
  C9_pitches_exact wEnv "3=" ⟨3, 0⟩ (by decide) (by decide) (by decide)

/-- C10: a criteria mapping whose only key is distanceUnits (any value,
even an invalid one) compiles without error to the same unfiltered plan
shape as the empty mapping: no joins, the always-true predicate, and no
geospatial items - distanceUnits is not among the keys that activate the
geospatial path. -/
theorem C10_distance_units_only (env : Env) (u : String) :
    processFilters env [("distanceUnits", u)] = .ok ⟨[], [WhereItem.base], some []⟩ ∧
    processFilters env [] = .ok ⟨[], [WhereItem.baseBare], none⟩ ∧
    textOf (renderWhere [WhereItem.base]) = "where true " ∧
    textOf (renderJoins ([] : List JoinItem)) = "" :=
  ⟨rfl, rfl, rfl, rfl⟩

/-- With unique severity tokens, the reference rows matching one token are
empty or a single row. -/
theorem filter_sev_unique (t : List SevEntry)
    (hnd : (t.map (fun e => e.severity)).Nodup) (k : String) :
    t.filter (fun e => e.severity = k) = [] ∨
      ∃ e, t.filter (fun e => e.severity = k) = [e] := by
  induction t with
  | nil => exact Or.inl rfl
  | cons a tl ih =>
    simp only [List.map_cons, List.nodup_cons] at hnd
    obtain ⟨hna, hnd2⟩ := hnd
    by_cases hk : a.severity = k
    · right
      refine ⟨a, ?_⟩
      rw [List.filter_cons_of_pos (by simp [hk])]
      have hnil : tl.filter (fun e => e.severity = k) = [] := by
        rw [List.filter_eq_nil_iff]
        intro e het
        simp only [decide_eq_true_eq]
        intro hek
        exact hna (by rw [hk, ← hek]; exact List.mem_map_of_mem _ het)
      rw [hnil]
    · rcases ih hnd2 with h0 | ⟨e, he⟩
      · exact Or.inl (by rw [List.filter_cons_of_neg (by simp [hk]), h0])
      · exact Or.inr ⟨e, by rw [List.filter_cons_of_neg (by simp [hk]), he]⟩

/-- C7: a type criterion whose lowered value contains trad compiles to the
type disjunction including the trad disjunct; the trad disjunct holds of a
route type tag exactly when the lowered tag contains trad and contains none
of aid, mixed, ice, snow; hence the plan compiled from type Trad excludes
every route whose tag contains aid even when it also contains trad. -/
theorem C7_trad_exclusions (env : Env) (tyRaw : String)
    (h : containsSub (pyLower tyRaw) "trad" = true) :
    processFilters env [("type", tyRaw)] =
      .ok ⟨[], [WhereItem.base, WhereItem.typeFilter (catsOf (pyLower tyRaw))], some []⟩ ∧
    TypeCat.trad ∈ catsOf (pyLower tyRaw) ∧
    (∀ tag : String, evalCat tag TypeCat.trad = true ↔
      (containsSub (pyLower tag) "trad" = true ∧ containsSub (pyLower tag) "aid" = false ∧
       containsSub (pyLower tag) "mixed" = false ∧ containsSub (pyLower tag) "ice" = false ∧
       containsSub (pyLower tag) "snow" = false)) ∧
    (∀ tag : String, containsSub (pyLower tag) "aid" = true →
      evalTypeFilter (catsOf (pyLower "Trad")) tag = false) := by
  have hmem : TypeCat.trad ∈ catsOf (pyLower tyRaw) := by simp [catsOf, h]
  have hne : (catsOf (pyLower tyRaw)).isEmpty = false := by
    rcases hcc : catsOf (pyLower tyRaw) with _ | _ <;> simp_all
  refine ⟨?_, hmem, ?_, ?_⟩
  · rw [pf_type_eq]
    simp [hne]
  · intro tag
    simp [evalCat, Bool.and_eq_true, Bool.not_eq_true', and_assoc]
  · intro tag htag
    rw [show catsOf (pyLower "Trad") = [TypeCat.trad] from rfl]
    simp [evalTypeFilter, evalCat, htag]

/-- C7 witness: compiling type Trad yields the single trad disjunct, whose
semantics rejects a composite trad-aid tag. -/
theorem C7_witness :
    processFilters wEnv [("type", "Trad")] =
      .ok ⟨[], [WhereItem.base, WhereItem.typeFilter (catsOf (pyLower "Trad"))], some []⟩ ∧
    TypeCat.trad ∈ catsOf (pyLower "Trad") ∧
    (evalCat "Trad, Aid" TypeCat.trad = true ↔
      (containsSub (pyLower "Trad, Aid") "trad" = true ∧
       containsSub (pyLower "Trad, Aid") "aid" = false ∧
       containsSub (pyLower "Trad, Aid") "mixed" = false ∧
       containsSub (pyLower "Trad, Aid") "ice" = false ∧
       containsSub (pyLower "Trad, Aid") "snow" = false)) ∧
    evalTypeFilter (catsOf (pyLower "Trad")) "Trad, Aid" = false := by
  have h := C7_trad_exclusions wEnv "Trad" (by decide)
  exact ⟨h.1, h.2.1, h.2.2.1 "Trad, Aid", h.2.2.2 "Trad, Aid" (by decide)⟩

/-- C8: a known severityThreshold token compiles to the severity-reference
join with the threshold rank bound as the severity parameter, and the
compiled severity unit keeps exactly the routes whose effective severity
rank (with a missing route token defaulted to G before lookup) is at most
the threshold rank - a ceiling, not equality. -/
theorem C8_severity_ceiling (env : Env) (tok : String) (r : Int)
    (hr : sevRankOf env.sevTable (pyUpper tok) = some r)
    (hnd : (env.sevTable.map (fun e => e.severity)).Nodup) :
    processFilters env [("severityThreshold", tok)] =
      .ok ⟨[JoinItem.sevJoin], [WhereItem.base, WhereItem.sevLe],
           some [("severity", Val.int r)]⟩ ∧
    (∀ (rSev : Option String) (rE : Int),
      sevRankOf env.sevTable (rSev.getD "G") = some rE →
      (sevKeeps env.sevTable r rSev = true ↔ rE ≤ r)) := by
  constructor
  · rw [pf_sev_eq, hr]
  · intro rSev rE hq
    rcases filter_sev_unique env.sevTable hnd (rSev.getD "G") with h0 | ⟨e, he⟩
    · unfold sevRankOf at hq
      rw [h0] at hq
      simp at hq
    · unfold sevRankOf at hq
      rw [he] at hq
      simp only [List.head?_cons, Option.map_some] at hq
      have hre : e.ranking = rE := by simpa using hq
      unfold sevKeeps
      rw [he]
      simp [hre]

/-- C8 witness: threshold pg13 (rank ten) compiles as severity ceiling ten,
and a route with severity R (rank fifteen) is excluded by the unit. -/
theorem C8_witness :
    processFilters wEnv [("severityThreshold", "pg13")] =
      .ok ⟨[JoinItem.sevJoin], [WhereItem.base, WhereItem.sevLe],
           some [("severity", Val.int 10)]⟩ ∧
    (sevKeeps wSevTable 10 (some "R") = true ↔ (15 : Int) ≤ 10) := by
  have h := C8_severity_ceiling wEnv "pg13" 10 (by decide) (by decide)
  exact ⟨h.1, h.2 (some "R") 15 (by decide)⟩

/-- A trailing dash on the radius value changes nothing: the plus test stays
false and the dash is stripped before parsing. -/
theorem geoBlock_latlonrad_dash (env : Env) (la lo r : String) (st : BuildState)
    (hws : dropTrail isWsChar (pyLower r).data = (pyLower r).data)
    (hplus : pyEndsWith (pyStripWs (pyLower r)) '+' = false) :
    geoBlock env [("latitude", la), ("longitude", lo), ("radius", r ++ "-")] st =
    geoBlock env [("latitude", la), ("longitude", lo), ("radius", r)] st := by
  have h1 : pyLower (r ++ "-") = pyLower r ++ "-" := by
    rw [pyLower_append]
    rfl
  have h2 : pyStripWs (pyLower (r ++ "-")) = pyStripWs (pyLower r) ++ "-" := by
    rw [h1]
    exact pyStripWs_append_one (pyLower r) '-' (by decide) hws
  have hresolve : resolveLatLong env [("latitude", la), ("longitude", lo), ("radius", r ++ "-")] =
      resolveLatLong env [("latitude", la), ("longitude", lo), ("radius", r)] := by
    simp [resolveLatLong, hasKey, getValD, getVal]
  have hop2 : radiusOp (pyStripWs (pyLower r) ++ "-") = CmpOp.le := radiusOp_append_dash _
  have hop1 : radiusOp (pyStripWs (pyLower r)) = CmpOp.le := radiusOp_plain _ hplus
  simp [geoBlock, hasKey, getValD, getVal, geoKeys, distanceUnitsOf, validUnits,
        earthRadiusOf, hresolve, h2, radiusStr_append_dash, hop1, hop2]

/-- C4 amended: for the six plain numeric range criteria a value with no
trailing marker compiles exactly like the same value with an explicit plus
marker; for the radius criterion the unmarked value instead compiles exactly
like the value with an explicit dash marker (the within-distance direction),
while an explicit plus flips the comparison. -/
theorem C4_amended_no_suffix :
    (∀ (env : Env) (c : NumCrit) (s : String),
      dropTrail isWsChar (pyLower s).data = (pyLower s).data →
      pyEndsWith (pyStripWs (pyLower s)) '-' = false →
      pyEndsWith (pyStripWs (pyLower s)) '=' = false →
      processFilters env [(critKey c, s ++ "+")] = processFilters env [(critKey c, s)]) ∧
    (∀ (env : Env) (la lo s : String),
      dropTrail isWsChar (pyLower s).data = (pyLower s).data →
      pyEndsWith (pyStripWs (pyLower s)) '+' = false →
      processFilters env [("latitude", la), ("longitude", lo), ("radius", s ++ "-")] =
      processFilters env [("latitude", la), ("longitude", lo), ("radius", s)]) := by
  constructor
  · intro env c s hws hm he
    rw [pf_num_eq, pf_num_eq, numericBlockVal_append_plus (allowEq c) s hws hm he]
  · intro env la lo s hws hplus
    rw [pf_latlonrad_eq, pf_latlonrad_eq, geoBlock_latlonrad_dash env la lo s _ hws hplus]

/-- C4 counterexample: the claim as stated fails for the radius criterion -
the unmarked radius 30 compiles to the within-distance (less-equal)
predicate while 30 with the plus marker compiles to the at-least-distance
(greater-equal) predicate, so the two plans differ. -/
theorem C4_counterexample :
    processFilters cEnv [("latitude", "40"), ("longitude", "-105"), ("radius", "30")] ≠
    processFilters cEnv [("latitude", "40"), ("longitude", "-105"), ("radius", "30+")] := by
  intro hcontra
  have h1 : processFilters cEnv [("latitude", "40"), ("longitude", "-105"), ("radius", "30")] =
      .ok ⟨[.geoJoin], [.base, .latNotNull, .lonNotNull, .notGenericArea, .distCmp .le],
           some [("earthRadius", .num ⟨39588, 1⟩), ("latitude", .num ⟨40, 0⟩),
                 ("longitude", .num ⟨-105, 0⟩), ("radius", .num ⟨30, 0⟩)]⟩ := rfl
  have h2 : processFilters cEnv [("latitude", "40"), ("longitude", "-105"), ("radius", "30+")] =
      .ok ⟨[.geoJoin], [.base, .latNotNull, .lonNotNull, .notGenericArea, .distCmp .ge],
           some [("earthRadius", .num ⟨39588, 1⟩), ("latitude", .num ⟨40, 0⟩),
                 ("longitude", .num ⟨-105, 0⟩), ("radius", .num ⟨30, 0⟩)]⟩ := rfl
  rw [h1, h2] at hcontra
  simp at hcontra

/-- C4 witness: height 30 equals height 30 plus, and radius 30 equals
radius 30 dash. -/
theorem C4_witness :
    processFilters cEnv [("height", "30+")] = processFilters cEnv [("height", "30")] ∧
    processFilters cEnv [("latitude", "40"), ("longitude", "-105"), ("radius", "30-")] =
    processFilters cEnv [("latitude", "40"), ("longitude", "-105"), ("radius", "30")] :=
  ⟨C4_amended_no_suffix.1 cEnv NumCrit.height "30" (by decide) (by decide) (by decide),
   C4_amended_no_suffix.2 cEnv "40" "-105" "30" (by decide) (by decide)⟩

/-- C5: fetchRoutes key handling is not case-insensitive for parentAreaName.
The presence test lowers the keys, but the subscript uses the exact
camel-case spelling, so the all-lowercase key raises a KeyError while the
camel-case key compiles the scoped query; same validation, same filters. -/
theorem C5_parentareaname_keyerror :
    fetchRoutesPlan cEnv [("parentareaname", "Eldorado")] =
      .error (PipeError.keyError "parentAreaName") ∧
    fetchRoutesPlan cEnv [("parentAreaName", "Eldorado")] =
      .ok ⟨[], [WhereItem.base], some [("parentAreaName", Val.str "%eldorado%")], true⟩ :=
  ⟨rfl, rfl⟩

/-! ### Injection-safety lemmas -/

theorem litFrags_nil : litFrags [] = [] := rfl

theorem litFrags_cons_lit (s : String) (l : List Frag) :
    litFrags (Frag.lit s :: l) = s :: litFrags l := rfl

theorem litFrags_cons_param (n : String) (l : List Frag) :
    litFrags (Frag.param n :: l) = litFrags l := rfl

theorem litFrags_append (a b : List Frag) :
    litFrags (a ++ b) = litFrags a ++ litFrags b := by
  simp [litFrags, List.filterMap_append]

theorem paramRefs_nil : paramRefs [] = [] := rfl

theorem paramRefs_cons_lit (s : String) (l : List Frag) :
    paramRefs (Frag.lit s :: l) = paramRefs l := rfl

theorem paramRefs_cons_param (n : String) (l : List Frag) :
    paramRefs (Frag.param n :: l) = n :: paramRefs l := rfl

theorem paramRefs_append (a b : List Frag) :
    paramRefs (a ++ b) = paramRefs a ++ paramRefs b := by
  simp [paramRefs, List.filterMap_append]

theorem renderWhere_nil : renderWhere [] = [] := rfl

theorem renderWhere_cons (w : WhereItem) (l : List WhereItem) :
    renderWhere (w :: l) = renderWhereItem w ++ renderWhere l := rfl

theorem renderWhere_append (a b : List WhereItem) :
    renderWhere (a ++ b) = renderWhere a ++ renderWhere b := by
  induction a with
  | nil => simp [renderWhere_nil]
  | cons w t ih => simp [renderWhere_cons, ih]

theorem renderJoins_nil : renderJoins [] = [] := rfl

theorem renderJoins_cons (j : JoinItem) (l : List JoinItem) :
    renderJoins (j :: l) = renderJoinItem j ++ renderJoins l := rfl

theorem renderJoins_append (a b : List JoinItem) :
    renderJoins (a ++ b) = renderJoins a ++ renderJoins b := by
  induction a with
  | nil => simp [renderJoins_nil]
  | cons j t ih => simp [renderJoins_cons, ih]

theorem litFrags_catMap (cats : List TypeCat) :
    litFrags (cats.map (fun c => Frag.lit (catText c))) = cats.map catText := by
  induction cats with
  | nil => rfl
  | cons a t ih => simp [litFrags_cons_lit, ih]

theorem paramRefs_catMap (cats : List TypeCat) :
    paramRefs (cats.map (fun c => Frag.lit (catText c))) = [] := by
  induction cats with
  | nil => rfl
  | cons a t ih => simp [paramRefs_cons_lit, ih]

theorem catText_mem_const (c : TypeCat) : catText c ∈ constantTexts := by
  cases c <;> simp [constantTexts, allCats]

theorem whereItem_lits_const (w : WhereItem) :
    ∀ s ∈ litFrags (renderWhereItem w), s ∈ constantTexts := by
  cases w with
  | typeFilter cats =>
    intro s hs
    simp only [renderWhereItem, litFrags_append, litFrags_cons_lit, litFrags_nil,
      litFrags_catMap, List.mem_append, List.mem_cons, List.mem_map,
      List.not_mem_nil, or_false] at hs
    rcases hs with (rfl | ⟨c, _, rfl⟩) | rfl
    · simp [constantTexts]
    · exact catText_mem_const c
    · simp [constantTexts]
  | numCmp c op =>
    intro s hs
    simp only [renderWhereItem, litFrags_cons_lit, litFrags_cons_param, litFrags_nil,
      List.mem_cons, List.not_mem_nil, or_false] at hs
    rcases hs with rfl | rfl
    · cases c <;> cases op <;> simp [constantTexts, allNumCrits, allOps, colName, opText]
    · simp [constantTexts]
  | distCmp op =>
    intro s hs
    simp only [renderWhereItem, litFrags_cons_lit, litFrags_cons_param, litFrags_nil,
      List.mem_cons, List.not_mem_nil, or_false] at hs
    rcases hs with rfl | rfl
    · cases op <;> simp [constantTexts, allOps, opText]
    · simp [constantTexts]
  | baseBare =>
    intro s hs
    simp only [renderWhereItem, litFrags_cons_lit, litFrags_nil, List.mem_cons,
      List.not_mem_nil, or_false] at hs
    subst hs
    simp [constantTexts]
  | base =>
    intro s hs
    simp only [renderWhereItem, litFrags_cons_lit, litFrags_nil, List.mem_cons,
      List.not_mem_nil, or_false] at hs
    subst hs
    simp [constantTexts]
  | diffHigh =>
    intro s hs
    simp only [renderWhereItem, litFrags_cons_lit, litFrags_cons_param, litFrags_nil,
      List.mem_cons, List.not_mem_nil, or_false] at hs
    rcases hs with rfl | rfl <;> simp [constantTexts]
  | diffLow =>
    intro s hs
    simp only [renderWhereItem, litFrags_cons_lit, litFrags_cons_param, litFrags_nil,
      List.mem_cons, List.not_mem_nil, or_false] at hs
    rcases hs with rfl | rfl <;> simp [constantTexts]
  | diffSystem =>
    intro s hs
    simp only [renderWhereItem, litFrags_cons_lit, litFrags_cons_param, litFrags_nil,
      List.mem_cons, List.not_mem_nil, or_false] at hs
    rcases hs with rfl | rfl <;> simp [constantTexts]
  | sevLe =>
    intro s hs
    simp only [renderWhereItem, litFrags_cons_lit, litFrags_cons_param, litFrags_nil,
      List.mem_cons, List.not_mem_nil, or_false] at hs
    rcases hs with rfl | rfl <;> simp [constantTexts]
  | latNotNull =>
    intro s hs
    simp only [renderWhereItem, litFrags_cons_lit, litFrags_nil, List.mem_cons,
      List.not_mem_nil, or_false] at hs
    subst hs
    simp [constantTexts]
  | lonNotNull =>
    intro s hs
    simp only [renderWhereItem, litFrags_cons_lit, litFrags_nil, List.mem_cons,
      List.not_mem_nil, or_false] at hs
    subst hs
    simp [constantTexts]
  | notGenericArea =>
    intro s hs
    simp only [renderWhereItem, litFrags_cons_lit, litFrags_nil, List.mem_cons,
      List.not_mem_nil, or_false] at hs
    subst hs
    simp [constantTexts]

theorem joinItem_lits_const (j : JoinItem) :
    ∀ s ∈ litFrags (renderJoinItem j), s ∈ constantTexts := by
  cases j <;> intro s hs <;>
    simp only [renderJoinItem, litFrags_cons_lit, litFrags_cons_param, litFrags_nil,
      List.mem_cons, List.not_mem_nil, or_false] at hs
  · subst hs; simp [constantTexts]
  · subst hs; simp [constantTexts]
  · subst hs; simp [constantTexts]
  · rcases hs with rfl | rfl | rfl | rfl | rfl <;> simp [constantTexts]

theorem renderWhere_lits_const (l : List WhereItem) :
    ∀ s ∈ litFrags (renderWhere l), s ∈ constantTexts := by
  induction l with
  | nil => intro s hs; cases hs
  | cons w t ih =>
    intro s hs
    rw [renderWhere_cons, litFrags_append, List.mem_append] at hs
    rcases hs with hs | hs
    · exact whereItem_lits_const w s hs
    · exact ih s hs

theorem renderJoins_lits_const (l : List JoinItem) :
    ∀ s ∈ litFrags (renderJoins l), s ∈ constantTexts := by
  induction l with
  | nil => intro s hs; cases hs
  | cons j t ih =>
    intro s hs
    rw [renderJoins_cons, litFrags_append, List.mem_append] at hs
    rcases hs with hs | hs
    · exact joinItem_lits_const j s hs
    · exact ih s hs

theorem plan_lits_const (p : Plan) :
    ((planLits p).all (fun s => constantTexts.contains s)) = true := by
  rw [List.all_eq_true]
  intro s hs
  have hmem : s ∈ constantTexts := by
    simp only [planLits, renderPlan, litFrags_append, List.mem_append] at hs
    rcases hs with hs | hs
    · exact renderJoins_lits_const p.joins s hs
    · exact renderWhere_lits_const p.wheres s hs
  simpa using hmem

theorem extend_paramsOk (st : BuildState) (js : List JoinItem) (ws : List WhereItem)
    (ps : List (String × Val)) (hst : stParamsOk st)
    (hnew : ∀ n, n ∈ paramRefs (renderJoins js ++ renderWhere ws) → n ∈ ps.map (·.1)) :
    stParamsOk (extendState st js ws ps) := by
  intro n hn
  simp only [extendState, renderJoins_append, renderWhere_append, paramRefs_append,
    List.mem_append, List.map_append] at hn ⊢
  rcases hn with (hj | hj) | (hw | hw)
  · exact Or.inl (hst n (by rw [paramRefs_append, List.mem_append]; exact Or.inl hj))
  · exact Or.inr (hnew n (by rw [paramRefs_append, List.mem_append]; exact Or.inl hj))
  · exact Or.inl (hst n (by rw [paramRefs_append, List.mem_append]; exact Or.inr hw))
  · exact Or.inr (hnew n (by rw [paramRefs_append, List.mem_append]; exact Or.inr hw))

theorem pfStep_ok {x : Except PipeError BuildState}
    {f : BuildState → Except PipeError BuildState} {s : BuildState}
    (h : pfStep x f = .ok s) : ∃ m, x = .ok m ∧ f m = .ok s := by
  cases x with
  | error e => simp [pfStep] at h
  | ok m => exact ⟨m, rfl, h⟩

theorem difficultyBlock_paramsOk {env : Env} {kw : Kwargs} {st st2 : BuildState}
    (h : difficultyBlock env kw st = .ok st2) (hst : stParamsOk st) : stParamsOk st2 := by
  unfold difficultyBlock at h
  split at h
  · split at h
    · simp at h
    · split at h
      · simp at h
      · split at h
        · simp at h
        · injection h with h
          subst h
          refine extend_paramsOk st _ _ _ hst ?_
          intro n hn
          simp only [renderJoins_cons, renderJoins_nil, renderWhere_cons, renderWhere_nil,
            renderJoinItem, renderWhereItem, paramRefs_append, paramRefs_cons_lit,
            paramRefs_cons_param, paramRefs_nil, List.append_nil, List.mem_append,
            List.mem_cons, List.not_mem_nil, or_false, false_or] at hn
          simp only [List.map_cons, List.map_nil, List.mem_cons, List.not_mem_nil, or_false]
          tauto
  · injection h with h
    subst h
    exact hst

theorem typeBlock_paramsOk {kw : Kwargs} {st st2 : BuildState}
    (h : typeBlock kw st = .ok st2) (hst : stParamsOk st) : stParamsOk st2 := by
  unfold typeBlock at h
  split at h
  · split at h
    · simp at h
    · injection h with h
      subst h
      refine extend_paramsOk st _ _ _ hst ?_
      intro n hn
      simp only [renderJoins_nil, renderWhere_cons, renderWhere_nil, renderWhereItem,
        paramRefs_append, paramRefs_cons_lit, paramRefs_cons_param, paramRefs_nil,
        paramRefs_catMap, List.append_nil, List.nil_append, List.mem_append,
        List.not_mem_nil, or_false] at hn
  · injection h with h
    subst h
    exact hst

theorem severityBlock_paramsOk {env : Env} {kw : Kwargs} {st st2 : BuildState}
    (h : severityBlock env kw st = .ok st2) (hst : stParamsOk st) : stParamsOk st2 := by
  unfold severityBlock at h
  split at h
  · split at h
    · simp at h
    · injection h with h
      subst h
      refine extend_paramsOk st _ _ _ hst ?_
      intro n hn
      simp only [renderJoins_cons, renderJoins_nil, renderWhere_cons, renderWhere_nil,
        renderJoinItem, renderWhereItem, paramRefs_append, paramRefs_cons_lit,
        paramRefs_cons_param, paramRefs_nil, List.append_nil, List.mem_append,
        List.mem_cons, List.not_mem_nil, or_false, false_or] at hn
      simp only [List.map_cons, List.map_nil, List.mem_cons, List.not_mem_nil, or_false]
      tauto
  · injection h with h
    subst h
    exact hst

theorem numBlock_paramsOk {c : NumCrit} {kw : Kwargs} {st st2 : BuildState}
    (h : numBlock c kw st = .ok st2) (hst : stParamsOk st) : stParamsOk st2 := by
  unfold numBlock at h
  split at h
  · split at h
    · simp at h
    · injection h with h
      subst h
      refine extend_paramsOk st _ _ _ hst ?_
      intro n hn
      have hjoins : paramRefs (renderJoins
          (if c = NumCrit.elevation then [JoinItem.elevJoin] else [])) = [] := by
        by_cases hc : c = NumCrit.elevation <;>
          simp [hc, renderJoins_cons, renderJoins_nil, renderJoinItem,
            paramRefs_cons_lit, paramRefs_nil]
      simp only [paramRefs_append, hjoins, renderWhere_cons, renderWhere_nil,
        renderWhereItem, paramRefs_cons_lit, paramRefs_cons_param, paramRefs_nil,
        List.append_nil, List.nil_append, List.mem_append, List.mem_cons,
        List.not_mem_nil, or_false, false_or] at hn
      simp only [List.map_cons, List.map_nil, List.mem_cons, List.not_mem_nil, or_false]
      tauto
  · injection h with h
    subst h
    exact hst

theorem geoBlock_paramsOk {env : Env} {kw : Kwargs} {st st2 : BuildState}
    (h : geoBlock env kw st = .ok st2) (hst : stParamsOk st) : stParamsOk st2 := by
  unfold geoBlock at h
  split at h
  · split at h
    · simp at h
    · split at h
      · simp at h
      · split at h
        · simp at h
        · injection h with h
          subst h
          refine extend_paramsOk st _ _ _ hst ?_
          intro n hn
          simp only [renderJoins_cons, renderJoins_nil, renderWhere_cons, renderWhere_nil,
            renderJoinItem, renderWhereItem, paramRefs_append, paramRefs_cons_lit,
            paramRefs_cons_param, paramRefs_nil, List.append_nil, List.mem_append,
            List.mem_cons, List.not_mem_nil, or_false, false_or] at hn
          rcases hn with (rfl | rfl | rfl | rfl) | rfl <;> simp
  · injection h with h
    subst h
    exact hst

theorem pf_paramsOk {env : Env} {kw : Kwargs} {plan : Plan}
    (h : processFilters env kw = .ok plan) :
    ∀ n, n ∈ planRefs plan → n ∈ boundNames plan := by
  unfold processFilters at h
  split at h
  · injection h with h
    subst h
    intro n hn
    simp only [planRefs, renderPlan, renderJoins_nil, renderWhere_cons, renderWhere_nil,
      renderWhereItem, paramRefs_append, paramRefs_cons_lit, paramRefs_nil,
      List.append_nil, List.nil_append, List.not_mem_nil] at hn
  · split at h
    · simp at h
    · rename_i s hs
      injection h with h
      subst h
      obtain ⟨s1, h1, hs⟩ := pfStep_ok hs
      obtain ⟨s2, h2, hs⟩ := pfStep_ok hs
      obtain ⟨s3, h3, hs⟩ := pfStep_ok hs
      obtain ⟨s4, h4, hs⟩ := pfStep_ok hs
      obtain ⟨s5, h5, hs⟩ := pfStep_ok hs
      obtain ⟨s6, h6, hs⟩ := pfStep_ok hs
      obtain ⟨s7, h7, hs⟩ := pfStep_ok hs
      obtain ⟨s8, h8, hs⟩ := pfStep_ok hs
      obtain ⟨s9, h9, hs⟩ := pfStep_ok hs
      have o0 : stParamsOk ⟨[], [.base], []⟩ := by
        intro n hn
        simp only [renderJoins_nil, renderWhere_cons, renderWhere_nil, renderWhereItem,
          paramRefs_append, paramRefs_cons_lit, paramRefs_nil, List.append_nil,
          List.nil_append, List.not_mem_nil] at hn
      have o1 := difficultyBlock_paramsOk h1 o0
      have o2 := typeBlock_paramsOk h2 o1
      have o3 := severityBlock_paramsOk h3 o2
      have o4 := numBlock_paramsOk h4 o3
      have o5 := numBlock_paramsOk h5 o4
      have o6 := numBlock_paramsOk h6 o5
      have o7 := numBlock_paramsOk h7 o6
      have o8 := numBlock_paramsOk h8 o7
      have o9 := numBlock_paramsOk h9 o8
      have o10 := geoBlock_paramsOk hs o9
      intro n hn
      exact o10 n hn

/-- C1 amended: every plan processFilters compiles is injection-safe - each
literal fragment of the rendered join and predicate text is one of the fixed
source strings (so no criteria value is ever concatenated into the query
text) and every parameter placeholder is bound in the returned parameter
mapping - and the rank and severity reference lookups the compiler runs
internally bind their lookup values as named parameters.  (The per-system
difficulty enumeration inside fetchRatingSystemDifficulties is the
exception recorded by the counterexample.) -/
theorem C1_amended_injection_safe (env : Env) (kw : Kwargs) (plan : Plan)
    (h : processFilters env kw = .ok plan) :
    injectionSafeB plan = true ∧ internalLookupsParameterized = true := by
  refine ⟨?_, by decide⟩
  unfold injectionSafeB
  rw [Bool.and_eq_true]
  refine ⟨plan_lits_const plan, ?_⟩
  rw [List.all_eq_true]
  intro n hn
  have hmem := pf_paramsOk h n hn
  simpa using hmem

/-- C1 witness: the plan compiled from a severity threshold criterion is
injection-safe. -/
theorem C1_witness :
    injectionSafeB ⟨[JoinItem.sevJoin], [WhereItem.base, WhereItem.sevLe],
      some [("severity", Val.int 10)]⟩ = true ∧
    internalLookupsParameterized = true :=
  C1_amended_injection_safe wEnv [("severityThreshold", "pg13")]
    ⟨[JoinItem.sevJoin], [WhereItem.base, WhereItem.sevLe],
      some [("severity", Val.int 10)]⟩ rfl

/-- C1 counterexample: the per-system difficulty enumeration executed by
fetchRatingSystemDifficulties - which the compiler invokes during difficulty
compilation - interpolates the rating-system lookup value into the query
text as a literal fragment and binds no parameters at all, contradicting
the claim that the internal scale reference lookups pass their lookup
values only as bound parameters. -/
theorem C1_counterexample :
    Frag.lit "YDS" ∈ difficultyListQuery "YDS" ∧
    difficultyListQuery "YDS" ∈ fetchRatingSystemDifficultiesQueries wDiffTable ∧
    paramRefs (difficultyListQuery "YDS") = [] := by
  refine ⟨by decide, ?_, rfl⟩
  exact List.mem_cons_of_mem _
    (List.mem_map_of_mem _ (show "YDS" ∈ distinctSystems wDiffTable by decide))

end RockRoute
